import Mathlib

/-!
# PLMOT-SLAM: tracking front end and map drawer

A shallow embedding of `include/Tracking.h` and `src/MapDrawer.cc`.

* Pointers (`KeyFrame*`, `Atlas*`, ...) are natural-number handles, `0` being the null pointer.
* `float` and `double` values are exact rationals; rounding is not modelled.
* A member function is a function of the object it is called on; one that may write returns the
  updated object next to its result.
* Text written to `std::cerr` is collected in a list of lines.
* A C++ `throw` is the `error` case of `Except`, carrying the thrown object.
-/

namespace ORB_SLAM3

/-! ## Tracking states (`Tracking.h`, lines 111-123) -/

/-- The enumeration `Tracking::eTrackingState`, one constructor per enumerator. -/
inductive eTrackingState where
  | SYSTEM_NOT_READY
  | NO_IMAGES_YET
  | NOT_INITIALIZED
  | OK
  | RECENTLY_LOST
  | LOST
  | OK_KLT
  deriving DecidableEq, Repr

/-- The integer value the header gives each enumerator. -/
def eTrackingState.toInt : eTrackingState → Int
  | .SYSTEM_NOT_READY => -1
  | .NO_IMAGES_YET => 0
  | .NOT_INITIALIZED => 1
  | .OK => 2
  | .RECENTLY_LOST => 3
  | .LOST => 4
  | .OK_KLT => 5

/-- Every enumerator of `eTrackingState`, in declaration order. -/
def eTrackingState.all : List eTrackingState :=
  [.SYSTEM_NOT_READY, .NO_IMAGES_YET, .NOT_INITIALIZED, .OK, .RECENTLY_LOST, .LOST, .OK_KLT]

/-- The six states the specification lists: `NOT_READY` is `SYSTEM_NOT_READY` and `NO_DATA` is
`NO_IMAGES_YET`; the other four carry the same name in the header. -/
def specStates : List eTrackingState :=
  [.SYSTEM_NOT_READY, .NO_IMAGES_YET, .NOT_INITIALIZED, .OK, .RECENTLY_LOST, .LOST]

/-- A `cv::Mat` of numbers, row by row; the matrix with no rows is the empty matrix. -/
structure cvMat where
  rows : List (List ℚ)
  deriving DecidableEq, Repr

/-- `cv::Mat::empty()`. -/
def cvMat.empty (m : cvMat) : Bool :=
  m.rows.isEmpty

/-! ## Settings file (`cv::FileStorage`, used by `MapDrawer.cc`) -/

/-- What a node of a settings file holds. -/
inductive FileNodeValue where
  | int (i : Int)
  | real (x : ℚ)
  | str (s : String)
  | seq
  | map
  deriving DecidableEq, Repr

/-- A `cv::FileNode`: `none` is the empty node that `operator[]` returns for an absent key. -/
structure FileNode where
  val : Option FileNodeValue
  deriving DecidableEq, Repr

/-- The largest finite `double`, which OpenCV hands out when a non-numeric node is read as a
number. -/
def DBL_MAX : ℚ := 2 ^ 1024 - 2 ^ 971

/-- `FileNode::empty()`: true exactly for the node of an absent key. -/
def FileNode.empty (node : FileNode) : Bool :=
  node.val.isNone

/-- `FileNode::isReal()`: the node holds a floating-point number. -/
def FileNode.isReal (node : FileNode) : Bool :=
  match node.val with
  | some (.real _) => true
  | _ => false

/-- `FileNode::real()`: the numeric value of the node; integers are converted, the empty node
reads as zero and every other kind of node reads as `DBL_MAX`. -/
def FileNode.real (node : FileNode) : ℚ :=
  match node.val with
  | none => 0
  | some (.int i) => i
  | some (.real x) => x
  | some _ => DBL_MAX

/-- A `cv::FileStorage` opened for reading: the top-level entries of the file in order.  A file
that could not be opened has no entries. -/
structure FileStorage where
  entries : List (String × FileNodeValue)
  deriving DecidableEq, Repr

/-- `FileStorage::operator[]`: the first top-level node with the given name, or the empty node. -/
def FileStorage.get (fSettings : FileStorage) (nodename : String) : FileNode :=
  ⟨(fSettings.entries.find? (fun e => e.1 == nodename)).map (fun e => e.2)⟩

/-! ## `MapDrawer` (`MapDrawer.cc`, lines 32-123) -/

/-- The data members of `MapDrawer` that `MapDrawer.cc` reads or writes. -/
structure MapDrawer where
  mpAtlas : Nat
  mKeyFrameSize : ℚ
  mKeyFrameLineWidth : ℚ
  mGraphLineWidth : ℚ
  mPointSize : ℚ
  mCameraSize : ℚ
  mCameraLineWidth : ℚ
  mCameraPose : cvMat
  deriving DecidableEq, Repr

/-- The six parameter names `ParseViewerParamFile` asks for, in the order it asks. -/
def viewerParams : List String :=
  ["Viewer.KeyFrameSize", "Viewer.KeyFrameLineWidth", "Viewer.GraphLineWidth",
   "Viewer.PointSize", "Viewer.CameraSize", "Viewer.CameraLineWidth"]

/-- The line `ParseViewerParamFile` writes to `std::cerr` for a parameter it rejects. -/
def missingDiagnostic (param : String) : String :=
  "*" ++ param ++ " parameter doesn\x27t exist or is not a real number*"

/-- The running state of `ParseViewerParamFile`: the drawer being filled, the lines written to
`std::cerr` so far and the local flag `b_miss_params`. -/
structure ParseState where
  self : MapDrawer
  cerr : List String
  b_miss_params : Bool
  deriving DecidableEq, Repr

/-- One of the six blocks of `ParseViewerParamFile`: look the parameter up; when the node is not
empty store `node.real()` through `assign`, otherwise write the diagnostic and raise
`b_miss_params`. -/
def parseViewerParam (fSettings : FileStorage) (param : String)
    (assign : MapDrawer → ℚ → MapDrawer) (st : ParseState) : ParseState :=
  let node := fSettings.get param
  if !node.empty then
    { st with self := assign st.self node.real }
  else
    { st with cerr := st.cerr ++ [missingDiagnostic param], b_miss_params := true }

/-- The body of `MapDrawer::ParseViewerParamFile` up to its `return`: the six blocks in source
order, starting from `b_miss_params = false`. -/
def ParseViewerParamFile.run (self : MapDrawer) (cerr : List String) (fSettings : FileStorage) :
    ParseState :=
  let st : ParseState := ⟨self, cerr, false⟩
  let st := parseViewerParam fSettings "Viewer.KeyFrameSize"
    (fun d x => { d with mKeyFrameSize := x }) st
  let st := parseViewerParam fSettings "Viewer.KeyFrameLineWidth"
    (fun d x => { d with mKeyFrameLineWidth := x }) st
  let st := parseViewerParam fSettings "Viewer.GraphLineWidth"
    (fun d x => { d with mGraphLineWidth := x }) st
  let st := parseViewerParam fSettings "Viewer.PointSize"
    (fun d x => { d with mPointSize := x }) st
  let st := parseViewerParam fSettings "Viewer.CameraSize"
    (fun d x => { d with mCameraSize := x }) st
  let st := parseViewerParam fSettings "Viewer.CameraLineWidth"
    (fun d x => { d with mCameraLineWidth := x }) st
  st

/-- `MapDrawer::ParseViewerParamFile`: the returned flag `!b_miss_params`. -/
def ParseViewerParamFile (self : MapDrawer) (fSettings : FileStorage) : Bool :=
  !(ParseViewerParamFile.run self [] fSettings).b_miss_params

/-- An object in flight after a C++ `throw`: an `int`, or an object of class `exception` (or of a
class derived from it) with its message. -/
inductive Thrown where
  | int (v : Int)
  | exception (what : String)
  deriving DecidableEq, Repr

/-- The statement `try { body } catch(exception &e) { handler }`.  A handler for a class type
accepts objects of that class and of classes derived from it, never an `int`: when the body throws
an `exception` the handler runs, and any other thrown object leaves the statement. -/
def tryCatchException {α : Type} (body : Except Thrown α) (handler : String → Except Thrown α) :
    Except Thrown α :=
  match body with
  | .ok a => .ok a
  | .error (.exception what) => handler what
  | .error t => .error t

/-- What a call of the constructor leaves behind: the drawer, or the object thrown out of the
constructor, and the lines written to `std::cerr`. -/
structure Constructed where
  outcome : Except Thrown MapDrawer
  cerr : List String

/-- The constructor `MapDrawer::MapDrawer(Atlas*, const string&)`.  `uninit` holds the
indeterminate values of the members before the body runs and `fSettings` is the settings file
found at `strSettingPath`. -/
def MapDrawer.ctor (uninit : MapDrawer) (pAtlas : Nat) (fSettings : FileStorage) :
    Constructed :=
  let self : MapDrawer := { uninit with mpAtlas := pAtlas, mCameraPose := ⟨[]⟩ }
  let st := ParseViewerParamFile.run self [] fSettings
  let is_correct := !st.b_miss_params
  if !is_correct then
    let cerr := st.cerr ++ ["**ERROR in the config file, the format is not correct**"]
    match tryCatchException (Except.error (Thrown.int (-1)) : Except Thrown Unit)
        (fun _ => Except.ok ()) with
    | .ok _ => ⟨.ok st.self, cerr⟩
    | .error t => ⟨.error t, cerr⟩
  else
    ⟨.ok st.self, st.cerr⟩

/-! ## Data model of the tracking session (`Tracking.h`; records of absent headers from the
specification, section 3) -/

/-- Modelled from the spec: the pose type of `Frame.h`, which is missing: a 6-DoF pose, rotation
and translation, world to camera. -/
structure Pose where
  rotation : List (List ℚ)
  translation : List ℚ
  deriving DecidableEq, Repr

/-- Modelled from the spec: the class `Frame` of `Frame.h`, which is missing: sequence id,
timestamp, a pose that is present once estimated, and a back-reference to the keyframe the frame
was tracked against. -/
structure Frame where
  mnId : Nat
  mTimeStamp : ℚ
  mTcw : Option Pose
  mpReferenceKF : Nat
  deriving DecidableEq, Repr

/-- Modelled from the spec: the landmark record of `MapPoint.h` and `MapLine.h`, which are
missing: a handle, the keyframes observing it and the flag marking logical deletion. -/
structure Landmark where
  handle : Nat
  observers : List Nat
  mbBad : Bool
  deriving DecidableEq, Repr

/-- Modelled from the spec: the class `KeyFrame` of `KeyFrame.h`, which is missing: a promoted
frame with the landmarks it observes (point and line handles), weighted covisibility edges and
its place in the spanning tree. -/
structure KeyFrame where
  handle : Nat
  mnId : Nat
  mvpMapPoints : List Nat
  mvpMapLines : List Nat
  covisibility : List (Nat × Nat)
  parent : Option Nat
  children : List Nat
  deriving DecidableEq, Repr

/-- Modelled from the spec: the map of `Atlas.h`, which is missing: the Landmark Store and the
keyframe graph that tracking reads. -/
structure Atlas where
  keyframes : List KeyFrame
  mapPoints : List Landmark
  mapLines : List Landmark
  deriving DecidableEq, Repr

/-- The data members of `Tracking` that make up the tracking session state: state-machine value,
frames, pose history, local map, keyframe rules and counters.  The map behind `mpAtlas` is held
by value. -/
structure Tracking where
  mState : eTrackingState
  mLastProcessedState : eTrackingState
  mSensor : Int
  mCurrentFrame : Frame
  mLastFrame : Frame
  mlRelativeFramePoses : List (Option Pose)
  mlpReferences : List Nat
  mlFrameTimes : List ℚ
  mlbLost : List Bool
  mbOnlyTracking : Bool
  mbVO : Bool
  mpReferenceKF : Nat
  mvpLocalKeyFrames : List Nat
  mvpLocalMapPoints : List Nat
  mvpLocalMapLines : List Nat
  mpAtlas : Atlas
  mMinFrames : Int
  mMaxFrames : Int
  mnMatchesInliers : Int
  mnMatchesInliers_l : Int
  mpLastKeyFrame : Nat
  mnLastKeyFrameId : Nat
  mnLastRelocFrameId : Nat
  mTimeStampLost : ℚ
  time_recently_lost : ℚ
  mbCreatedMap : Bool
  mVelocity : Option Pose
  deriving DecidableEq, Repr

/-- `Tracking::GetLastKeyFrame` (`Tracking.h`, lines 97-100): the returned pointer together with
the session state after the call. -/
def Tracking.GetLastKeyFrame (self : Tracking) : Nat × Tracking :=
  (self.mpLastKeyFrame, self)

/-! ## Keyframe decision (`Tracking.h`, lines 244-247; specification, section 4.4) -/

/-- Modelled from the spec: the thresholds that `Tracking.cc`, which is missing, reads from the
settings; the specification leaves their values to the configuration.  Ratios are given as
numerator and denominator. -/
structure Thresholds where
  minInliers : Int
  criticalInliers : Int
  minLandmarks : Nat
  queueDepthLimit : Int
  trustNum : Int
  trustDen : Int
  qualityNum : Int
  qualityDen : Int
  covisibilityWeight : Nat
  gracePeriod : ℚ
  inertial : Bool
  deriving DecidableEq, Repr

/-- Modelled from the spec: what tracking reads of the mapping collaborator of `LocalMapping.h`,
which is missing: `isIdle()` and `queueDepth()`. -/
structure LocalMapping where
  isIdle : Bool
  queueDepth : Int
  deriving DecidableEq, Repr

/-- Modelled from the spec: the match counts the keyframe decision compares the inlier count
with: the landmark observations matched in the current frame and the landmarks tracked by the
reference keyframe.  The code computing them is in `Tracking.cc`, which is missing. -/
structure TrackingQuality where
  nMatches : Int
  nRefMatches : Int
  deriving DecidableEq, Repr

/-- Modelled from the spec: condition (c) of the keyframe decision of the missing `Tracking.cc`,
"inlier count is critically low". -/
def criticalInlierLoss (cfg : Thresholds) (inliers : Int) : Bool :=
  decide (inliers < cfg.criticalInliers)

/-- Modelled from the spec: the keyframe decision of the missing `Tracking.cc`.  No insertion in
localization-only mode; insert when the pose is trustworthy (inlier ratio above the threshold)
and (a) the minimum frame interval has elapsed since the last keyframe, or (b) mapping is idle
and the inlier count has dropped below the given ratio of the reference keyframe, or (c) the
inlier count is critically low; reject when mapping is backlogged beyond the queue-depth limit
unless (c) applies. -/
def keyFrameDecision (cfg : Thresholds) (self : Tracking) (mapper : LocalMapping)
    (q : TrackingQuality) (inliers : Int) : Bool :=
  let trustworthy := decide (cfg.trustNum * q.nMatches < cfg.trustDen * inliers)
  let a := decide ((self.mnLastKeyFrameId : Int) + self.mMinFrames ≤ self.mCurrentFrame.mnId)
  let b := mapper.isIdle && decide (cfg.qualityDen * inliers < cfg.qualityNum * q.nRefMatches)
  let c := criticalInlierLoss cfg inliers
  let backlogged := decide (cfg.queueDepthLimit < mapper.queueDepth)
  if self.mbOnlyTracking then false
  else if backlogged && !c then false
  else trustworthy && (a || b || c)

/-- Modelled from the spec: `Tracking::NeedNewKeyFrame`, whose body is in the missing
`Tracking.cc`: the keyframe decision on the point inlier count. -/
def Tracking.NeedNewKeyFrame (cfg : Thresholds) (self : Tracking) (mapper : LocalMapping)
    (q : TrackingQuality) : Bool :=
  keyFrameDecision cfg self mapper q self.mnMatchesInliers

/-- Modelled from the spec: `Tracking::NeedNewKeyFrameWithLines`, whose body is in the missing
`Tracking.cc`: the same decision on the inlier count of points and lines combined. -/
def Tracking.NeedNewKeyFrameWithLines (cfg : Thresholds) (self : Tracking) (mapper : LocalMapping)
    (q : TrackingQuality) : Bool :=
  keyFrameDecision cfg self mapper q (self.mnMatchesInliers + self.mnMatchesInliers_l)

/-! ## Pose estimation and the tracking step (`Tracking.h`, lines 191-229; specification,
sections 4.1 and 4.2) -/

/-- Modelled from the spec: what a pose-estimation strategy of the missing `Tracking.cc`
produces: a pose and the inlier counts of points and of lines. -/
structure PoseEstimate where
  pose : Pose
  inliers : Int
  inliers_l : Int
  deriving DecidableEq, Repr

/-- Modelled from the spec: the bootstrap map the initialization of the missing `Tracking.cc`
builds from a usable frame: the pose of the frame, the keyframes and the landmarks created. -/
structure Bootstrap where
  pose : Pose
  keyframes : List KeyFrame
  mapPoints : List Landmark
  mapLines : List Landmark
  deriving DecidableEq, Repr

/-- Modelled from the spec: one ingested sensor sample together with what the collaborators
(feature extraction, initializer, optimizer, place recognition, mapping), all missing from the
sources, answer for it: the outcome of each strategy, of the refinement against the local map,
the keyframe a promotion of the frame would create, and the state of the mapping collaborator. -/
structure FrameInput where
  timestamp : ℚ
  bootstrap : Option Bootstrap
  inertialPrediction : Option PoseEstimate
  motionModel : Option PoseEstimate
  referenceKeyFrame : Option PoseEstimate
  relocalization : Option PoseEstimate
  localMap : PoseEstimate
  quality : TrackingQuality
  newKeyFrame : KeyFrame
  mapper : LocalMapping
  deriving DecidableEq, Repr

/-- Modelled from the spec: the success test of a strategy of the missing `Tracking.cc`: the
strategy produced an estimate whose inlier count, points and lines combined, reaches the
minimum. -/
def strategySucceeds (cfg : Thresholds) (r : Option PoseEstimate) : Option PoseEstimate :=
  match r with
  | some e => if cfg.minInliers ≤ e.inliers + e.inliers_l then some e else none
  | none => none

/-- Modelled from the spec: the strategy chain of the Pose Estimator of the missing
`Tracking.cc`: the strategies are tried in order and the first success wins. -/
def poseEstimator (cfg : Thresholds) : List (Option PoseEstimate) → Option PoseEstimate
  | [] => none
  | r :: rest =>
    match strategySucceeds cfg r with
    | some e => some e
    | none => poseEstimator cfg rest

/-- Modelled from the spec: `Tracking::CreateMapInAtlas`, whose body is in the missing
`Tracking.cc`: tracking continues on a fresh map without keyframes or landmarks. -/
def Tracking.CreateMapInAtlas (self : Tracking) : Tracking :=
  { self with mpAtlas := ⟨[], [], []⟩, mbCreatedMap := true, mpReferenceKF := 0,
              mpLastKeyFrame := 0, mvpLocalKeyFrames := [], mvpLocalMapPoints := [],
              mvpLocalMapLines := [] }

/-- Modelled from the spec: the map initialization (`StereoInitialization`,
`MonocularInitialization`) of the missing `Tracking.cc`: when a bootstrap map with at least one
keyframe and the minimum landmark count is created, it is stored in the map, the frame takes its
pose and the state becomes `OK`; otherwise nothing changes. -/
def Tracking.Initialization (cfg : Thresholds) (self : Tracking) (inp : FrameInput) : Tracking :=
  match inp.bootstrap with
  | none => self
  | some b =>
    if 1 ≤ b.keyframes.length ∧ cfg.minLandmarks ≤ b.mapPoints.length + b.mapLines.length then
      let last := (b.keyframes.getLast?.map (fun kf => kf.handle)).getD 0
      { self with
        mState := .OK
        mCurrentFrame := { self.mCurrentFrame with mTcw := some b.pose, mpReferenceKF := last }
        mpAtlas := ⟨self.mpAtlas.keyframes ++ b.keyframes, self.mpAtlas.mapPoints ++ b.mapPoints,
                    self.mpAtlas.mapLines ++ b.mapLines⟩
        mpReferenceKF := last
        mpLastKeyFrame := last
        mnLastKeyFrameId := self.mCurrentFrame.mnId }
    else self

/-- Modelled from the spec: `Tracking::CreateNewKeyFrame`, whose body is in the missing
`Tracking.cc`: the frame is promoted, the keyframe enters the map and becomes the last and the
reference keyframe. -/
def Tracking.CreateNewKeyFrame (self : Tracking) (inp : FrameInput) : Tracking :=
  { self with
    mpAtlas := { self.mpAtlas with keyframes := self.mpAtlas.keyframes ++ [inp.newKeyFrame] }
    mpReferenceKF := inp.newKeyFrame.handle
    mpLastKeyFrame := inp.newKeyFrame.handle
    mnLastKeyFrameId := self.mCurrentFrame.mnId
    mCurrentFrame := { self.mCurrentFrame with mpReferenceKF := inp.newKeyFrame.handle } }

/-- Modelled from the spec: steps (1) to (4) and (6) of a tracking step of the missing
`Tracking.cc` once a map exists.  The chain given is run; on success the pose is refined against
the local map and kept as the pose of the frame; when the refined inlier count reaches the
minimum the state is `OK` and the keyframe decision is taken, otherwise the state given in
`onFailure` is taken and, coming from `OK`, the time of the loss is noted. -/
def Tracking.estimate (cfg : Thresholds) (self : Tracking) (inp : FrameInput)
    (chain : List (Option PoseEstimate)) (onFailure : eTrackingState) : Tracking :=
  let lose (t : Tracking) : Tracking :=
    { t with mState := onFailure,
             mTimeStampLost :=
               if self.mState = .OK then self.mCurrentFrame.mTimeStamp else t.mTimeStampLost }
  match poseEstimator cfg chain with
  | none => lose self
  | some _ =>
    let r := inp.localMap
    let t := { self with
      mCurrentFrame := { self.mCurrentFrame with mTcw := some r.pose,
                                                  mpReferenceKF := self.mpReferenceKF }
      mnMatchesInliers := r.inliers
      mnMatchesInliers_l := r.inliers_l }
    if cfg.minInliers ≤ r.inliers + r.inliers_l then
      let t := { t with mState := .OK }
      if t.NeedNewKeyFrameWithLines cfg inp.mapper inp.quality then t.CreateNewKeyFrame inp
      else t
    else lose t

/-- Modelled from the spec: step (5) of a tracking step of the missing `Tracking.cc`: one entry
is appended to each of the four history lists.  A frame with a pose records it with its reference
keyframe; a frame without one repeats the last recorded pose and reference and is flagged
lost. -/
def Tracking.recordPose (self : Tracking) : Tracking :=
  match self.mCurrentFrame.mTcw with
  | some Tcw =>
    { self with
      mlRelativeFramePoses := self.mlRelativeFramePoses ++ [some Tcw]
      mlpReferences := self.mlpReferences ++ [self.mCurrentFrame.mpReferenceKF]
      mlFrameTimes := self.mlFrameTimes ++ [self.mCurrentFrame.mTimeStamp]
      mlbLost := self.mlbLost ++ [false] }
  | none =>
    { self with
      mlRelativeFramePoses :=
        self.mlRelativeFramePoses ++ [(self.mlRelativeFramePoses.getLast?).getD none]
      mlpReferences := self.mlpReferences ++ [(self.mlpReferences.getLast?).getD 0]
      mlFrameTimes := self.mlFrameTimes ++ [self.mCurrentFrame.mTimeStamp]
      mlbLost := self.mlbLost ++ [true] }

/-- Modelled from the spec: the state rules of section 4.1, applied by the missing
`Tracking.cc` to the state the step starts in. -/
def Tracking.transition (cfg : Thresholds) (self : Tracking) (inp : FrameInput) : Tracking :=
  match self.mState with
  | .NO_IMAGES_YET => { self with mState := .NOT_INITIALIZED }
  | .NOT_INITIALIZED => self.Initialization cfg inp
  | .OK =>
    self.estimate cfg inp [inp.motionModel, inp.referenceKeyFrame, inp.relocalization]
      .RECENTLY_LOST
  | .RECENTLY_LOST =>
    if cfg.gracePeriod < self.mCurrentFrame.mTimeStamp - self.mTimeStampLost then
      { self with mState := .LOST }
    else
      self.estimate cfg inp
        ((if cfg.inertial then [inp.inertialPrediction] else []) ++ [inp.relocalization])
        .RECENTLY_LOST
  | .LOST =>
    if cfg.inertial then self.estimate cfg inp [inp.relocalization] .LOST
    else { self.CreateMapInAtlas with mState := .NOT_INITIALIZED }
  | .SYSTEM_NOT_READY => self
  | .OK_KLT => self

/-- Modelled from the spec: `Tracking::Track`, whose body is in the missing `Tracking.cc`: the
state the step starts in is noted, the state rules are applied, the pose history grows by one
entry and the frame becomes the last frame. -/
def Tracking.Track (cfg : Thresholds) (self : Tracking) (inp : FrameInput) : Tracking :=
  let self := { self with mLastProcessedState := self.mState }
  let self := self.transition cfg inp
  let self := self.recordPose
  { self with mLastFrame := self.mCurrentFrame }

/-- Modelled from the spec: the ingestion entry points `GrabImageStereo`, `GrabImageRGBD` and
`GrabImageMonocular`, whose bodies are in the missing `Tracking.cc`: a frame with the next
sequence id, the given timestamp and no pose yet becomes the current frame, `Track` runs, and the
estimated pose, or none, is returned. -/
def Tracking.GrabImage (cfg : Thresholds) (self : Tracking) (inp : FrameInput) :
    Option Pose × Tracking :=
  let frame : Frame := ⟨self.mCurrentFrame.mnId + 1, inp.timestamp, none, self.mpReferenceKF⟩
  let self := Tracking.Track cfg { self with mCurrentFrame := frame } inp
  (self.mCurrentFrame.mTcw, self)

/-- Modelled from the spec: the session state the constructor of the missing `Tracking.cc`
leaves: no image yet, an empty map and an empty pose history. -/
def Tracking.initial (sensor : Int) (minFrames maxFrames : Int) : Tracking where
  mState := .NO_IMAGES_YET
  mLastProcessedState := .NO_IMAGES_YET
  mSensor := sensor
  mCurrentFrame := ⟨0, 0, none, 0⟩
  mLastFrame := ⟨0, 0, none, 0⟩
  mlRelativeFramePoses := []
  mlpReferences := []
  mlFrameTimes := []
  mlbLost := []
  mbOnlyTracking := false
  mbVO := false
  mpReferenceKF := 0
  mvpLocalKeyFrames := []
  mvpLocalMapPoints := []
  mvpLocalMapLines := []
  mpAtlas := ⟨[], [], []⟩
  mMinFrames := minFrames
  mMaxFrames := maxFrames
  mnMatchesInliers := 0
  mnMatchesInliers_l := 0
  mpLastKeyFrame := 0
  mnLastKeyFrameId := 0
  mnLastRelocFrameId := 0
  mTimeStampLost := 0
  time_recently_lost := 0
  mbCreatedMap := false
  mVelocity := none

/-- Modelled from the spec: `Tracking::Reset`, whose body is in the missing `Tracking.cc`: the
session state is cleared and the state becomes `SYSTEM_NOT_READY`. -/
def Tracking.Reset (self : Tracking) : Tracking :=
  { Tracking.initial self.mSensor self.mMinFrames self.mMaxFrames with
    mState := .SYSTEM_NOT_READY, mbOnlyTracking := self.mbOnlyTracking }

/-- Modelled from the spec: whether the ingestion of the missing `Tracking.cc` takes in a frame
offered to it.  The specification wants every ingested frame recorded (section 7) and the
recorded entries strictly ordered by timestamp (section 8), so a frame is taken in exactly when
its timestamp is later than the last recorded time; the first frame always is. -/
def Tracking.accepts (self : Tracking) (inp : FrameInput) : Bool :=
  match self.mlFrameTimes.getLast? with
  | none => true
  | some t => decide (t < inp.timestamp)

/-- Modelled from the spec: an ingestion entry point of the missing `Tracking.cc` as its caller
sees it: a frame that is taken in is processed by `GrabImage` and the call returns the estimated
pose, if any; a frame that is not taken in leaves the session as it was and the call returns the
failure indicator, here `none`. -/
def Tracking.offerImage (cfg : Thresholds) (self : Tracking) (inp : FrameInput) :
    Option (Option Pose × Tracking) :=
  if self.accepts inp then some (self.GrabImage cfg inp) else none

/-- The session after a sequence of frames has been offered to it, first frame first. -/
def Tracking.ingest (cfg : Thresholds) (self : Tracking) : List FrameInput → Tracking
  | [] => self
  | inp :: rest =>
    match self.offerImage cfg inp with
    | some r => Tracking.ingest cfg r.2 rest
    | none => Tracking.ingest cfg self rest

/-- The sessions that ingesting frames and resetting can lead to from a freshly constructed
session. -/
inductive Tracking.Reachable (cfg : Thresholds) : Tracking → Prop where
  | initial (sensor minFrames maxFrames : Int) :
      Tracking.Reachable cfg (Tracking.initial sensor minFrames maxFrames)
  | grab {self : Tracking} (inp : FrameInput) :
      Tracking.Reachable cfg self → Tracking.Reachable cfg (self.GrabImage cfg inp).2
  | reset {self : Tracking} :
      Tracking.Reachable cfg self → Tracking.Reachable cfg self.Reset

/-! ## Local map (`Tracking.h`, lines 231-242 and 302-306; specification, section 4.4) -/

/-- Modelled from the spec: the lookup of a keyframe of the missing `Atlas.h` through its
handle: the record behind the handle, if the map holds one. -/
def Atlas.keyFrame? (atlas : Atlas) (handle : Nat) : Option KeyFrame :=
  atlas.keyframes.find? (fun kf => kf.handle == handle)

/-- Modelled from the spec: whether a handle names a landmark of the store (`MapPoint.h` and
`MapLine.h` are missing) that is not logically deleted, that is, not flagged bad. -/
def isLive (store : List Landmark) (handle : Nat) : Bool :=
  match store.find? (fun l => l.handle == handle) with
  | some l => !l.mbBad
  | none => false

/-- Modelled from the spec: `MapPoint::isBad()` and `MapLine::isBad()` of the missing
`MapPoint.h` and `MapLine.h`, through a handle: the bad flag of the landmark record. -/
def isBad (store : List Landmark) (handle : Nat) : Bool :=
  match store.find? (fun l => l.handle == handle) with
  | some l => l.mbBad
  | none => false

/-- Modelled from the spec: `Tracking::UpdateLocalKeyFrames`, whose body is in the missing
`Tracking.cc`: starting from the reference keyframe, the keyframes sharing covisibility above
the weight threshold and the spanning-tree neighbours of the reference. -/
def Tracking.UpdateLocalKeyFrames (cfg : Thresholds) (self : Tracking) : Tracking :=
  match self.mpAtlas.keyFrame? self.mpReferenceKF with
  | none => { self with mvpLocalKeyFrames := [] }
  | some ref =>
    let covisible :=
      (ref.covisibility.filter (fun e => decide (cfg.covisibilityWeight < e.2))).map (fun e => e.1)
    let tree := ref.parent.toList ++ ref.children
    { self with mvpLocalKeyFrames := (ref.handle :: (covisible ++ tree)).dedup }

/-- Modelled from the spec: the union of the landmarks the local keyframes observe, each handle
once, without the landmarks that are logically deleted; `observed` selects the point or the line
observations of a keyframe. -/
def localLandmarks (atlas : Atlas) (store : List Landmark) (observed : KeyFrame → List Nat)
    (localKeyFrames : List Nat) : List Nat :=
  (((localKeyFrames.filterMap atlas.keyFrame?).map observed).flatten.dedup).filter (isLive store)

/-- Modelled from the spec: `Tracking::UpdateLocalPoints`, whose body is in the missing
`Tracking.cc`: the local point set is rebuilt from the local keyframes. -/
def Tracking.UpdateLocalPoints (self : Tracking) : Tracking :=
  { self with
    mvpLocalMapPoints :=
      localLandmarks self.mpAtlas self.mpAtlas.mapPoints (fun kf => kf.mvpMapPoints)
        self.mvpLocalKeyFrames }

/-- Modelled from the spec: `Tracking::UpdateLocalPointsAndLines`, whose body is in the missing
`Tracking.cc`: the local point set and the local line set are rebuilt from the local
keyframes. -/
def Tracking.UpdateLocalPointsAndLines (self : Tracking) : Tracking :=
  { self.UpdateLocalPoints with
    mvpLocalMapLines :=
      localLandmarks self.mpAtlas self.mpAtlas.mapLines (fun kf => kf.mvpMapLines)
        self.mvpLocalKeyFrames }

/-- Modelled from the spec: the candidates the search of the missing `Tracking.cc` hands to
matching: the local landmarks that are in the store, not flagged bad at the time of the search,
and pass the visibility test `isInFrustum` (view frustum, viewing angle and scale) of the current
frame. -/
def searchCandidates (store : List Landmark) (isInFrustum : Nat → Bool) (locals : List Nat) :
    List Nat :=
  locals.filter (fun h => isLive store h && isInFrustum h)

/-- Modelled from the spec: `Tracking::SearchLocalPoints`, whose body is in the missing
`Tracking.cc`: the point candidates of the current frame. -/
def Tracking.SearchLocalPoints (self : Tracking) (isInFrustum : Nat → Bool) : List Nat :=
  searchCandidates self.mpAtlas.mapPoints isInFrustum self.mvpLocalMapPoints

/-- Modelled from the spec: `Tracking::SearchLocalPointsAndLines`, whose body is in the missing
`Tracking.cc`: the point candidates and the line candidates of the current frame. -/
def Tracking.SearchLocalPointsAndLines (self : Tracking)
    (pointInFrustum lineInFrustum : Nat → Bool) : List Nat × List Nat :=
  (searchCandidates self.mpAtlas.mapPoints pointInFrustum self.mvpLocalMapPoints,
   searchCandidates self.mpAtlas.mapLines lineInFrustum self.mvpLocalMapLines)

/-! ## Camera pose of the drawer (`MapDrawer.cc`, lines 647-759) -/

/-- The number of rows of a `cv::Mat`. -/
def cvMat.nrows (m : cvMat) : Nat :=
  m.rows.length

/-- The number of columns of a `cv::Mat`, read off its first row. -/
def cvMat.ncols (m : cvMat) : Nat :=
  (m.rows.headD []).length

/-- `cv::Mat::at<float>(i, j)`; outside the matrix the model reads zero. -/
def cvMat.at2 (m : cvMat) (i j : Nat) : ℚ :=
  (m.rows.getD i []).getD j 0

/-- `cv::Mat::at<float>(i)` on a row or column vector: the entry number `i` of the data. -/
def cvMat.at1 (m : cvMat) (i : Nat) : ℚ :=
  m.rows.flatten.getD i 0

/-- `cv::Mat::rowRange(a, b)`: the rows `a` to `b - 1`. -/
def cvMat.rowRange (m : cvMat) (a b : Nat) : cvMat :=
  ⟨(m.rows.drop a).take (b - a)⟩

/-- `cv::Mat::colRange(a, b)`: the columns `a` to `b - 1`. -/
def cvMat.colRange (m : cvMat) (a b : Nat) : cvMat :=
  ⟨m.rows.map (fun r => (r.drop a).take (b - a))⟩

/-- `cv::Mat::col(j)`: the column `j` as a matrix of one column. -/
def cvMat.col (m : cvMat) (j : Nat) : cvMat :=
  m.colRange j (j + 1)

/-- `cv::Mat::t()`: the transposed matrix. -/
def cvMat.t (m : cvMat) : cvMat :=
  ⟨(List.range m.ncols).map (fun j => (List.range m.nrows).map (fun i => m.at2 i j))⟩

/-- The unary minus of `cv::Mat`. -/
def cvMat.neg (m : cvMat) : cvMat :=
  ⟨m.rows.map (fun r => r.map (fun x => -x))⟩

/-- The matrix product `a * b` of `cv::Mat`. -/
def cvMat.mul (a b : cvMat) : cvMat :=
  ⟨(List.range a.nrows).map (fun i => (List.range b.ncols).map (fun j =>
    ((List.range a.ncols).map (fun k => a.at2 i k * b.at2 k j)).sum))⟩

/-- `cv::Mat::clone()`: a copy of the matrix. -/
def cvMat.clone (m : cvMat) : cvMat :=
  m

/-- A `pangolin::OpenGlMatrix`: the array `m` of sixteen numbers, a 4x4 matrix column by
column. -/
structure OpenGlMatrix where
  m : Fin 16 → ℚ

/-- The assignment `M.m[i] = v`. -/
def OpenGlMatrix.set (M : OpenGlMatrix) (i : Fin 16) (v : ℚ) : OpenGlMatrix :=
  ⟨Function.update M.m i v⟩

/-- `OpenGlMatrix::SetIdentity()`: ones at the entries 0, 5, 10 and 15, zeros elsewhere. -/
def OpenGlMatrix.SetIdentity (_M : OpenGlMatrix) : OpenGlMatrix :=
  ⟨fun i => if i = 0 ∨ i = 5 ∨ i = 10 ∨ i = 15 then 1 else 0⟩

/-- `MapDrawer::SetCurrentCameraPose`: the drawer keeps a copy of the pose. -/
def MapDrawer.SetCurrentCameraPose (self : MapDrawer) (Tcw : cvMat) : MapDrawer :=
  { self with mCameraPose := Tcw.clone }

/-- The two-matrix `MapDrawer::GetCurrentOpenGLCameraMatrix(M, MOw)` (lines 653-695): the
matrices `M` and `MOw` after the call. -/
def MapDrawer.GetCurrentOpenGLCameraMatrix (self : MapDrawer) (M MOw : OpenGlMatrix) :
    OpenGlMatrix × OpenGlMatrix :=
  if !self.mCameraPose.empty then
    let Rwc := ((self.mCameraPose.rowRange 0 3).colRange 0 3).t
    let twc := (Rwc.neg).mul ((self.mCameraPose.rowRange 0 3).col 3)
    let M := M.set 0 (Rwc.at2 0 0)
    let M := M.set 1 (Rwc.at2 1 0)
    let M := M.set 2 (Rwc.at2 2 0)
    let M := M.set 3 0
    let M := M.set 4 (Rwc.at2 0 1)
    let M := M.set 5 (Rwc.at2 1 1)
    let M := M.set 6 (Rwc.at2 2 1)
    let M := M.set 7 0
    let M := M.set 8 (Rwc.at2 0 2)
    let M := M.set 9 (Rwc.at2 1 2)
    let M := M.set 10 (Rwc.at2 2 2)
    let M := M.set 11 0
    let M := M.set 12 (twc.at1 0)
    let M := M.set 13 (twc.at1 1)
    let M := M.set 14 (twc.at1 2)
    let M := M.set 15 1
    let MOw := MOw.SetIdentity
    let MOw := MOw.set 12 (twc.at1 0)
    let MOw := MOw.set 13 (twc.at1 1)
    let MOw := MOw.set 14 (twc.at1 2)
    (M, MOw)
  else
    (M.SetIdentity, MOw.SetIdentity)

/-- The three-matrix `MapDrawer::GetCurrentOpenGLCameraMatrix(M, MOw, MTwwp)` (lines 697-759):
the matrices `M`, `MOw` and `MTwwp` after the call.  `Rwwp` holds the content of the local
matrix of that name, which the function allocates and reads without writing it. -/
def MapDrawer.GetCurrentOpenGLCameraMatrix3 (self : MapDrawer) (Rwwp : cvMat)
    (M MOw MTwwp : OpenGlMatrix) : OpenGlMatrix × OpenGlMatrix × OpenGlMatrix :=
  if !self.mCameraPose.empty then
    let Rwc := ((self.mCameraPose.rowRange 0 3).colRange 0 3).t
    let twc := (Rwc.neg).mul ((self.mCameraPose.rowRange 0 3).col 3)
    let M := M.set 0 (Rwc.at2 0 0)
    let M := M.set 1 (Rwc.at2 1 0)
    let M := M.set 2 (Rwc.at2 2 0)
    let M := M.set 3 0
    let M := M.set 4 (Rwc.at2 0 1)
    let M := M.set 5 (Rwc.at2 1 1)
    let M := M.set 6 (Rwc.at2 2 1)
    let M := M.set 7 0
    let M := M.set 8 (Rwc.at2 0 2)
    let M := M.set 9 (Rwc.at2 1 2)
    let M := M.set 10 (Rwc.at2 2 2)
    let M := M.set 11 0
    let M := M.set 12 (twc.at1 0)
    let M := M.set 13 (twc.at1 1)
    let M := M.set 14 (twc.at1 2)
    let M := M.set 15 1
    let MOw := MOw.SetIdentity
    let MOw := MOw.set 12 (twc.at1 0)
    let MOw := MOw.set 13 (twc.at1 1)
    let MOw := MOw.set 14 (twc.at1 2)
    let MTwwp := MTwwp.SetIdentity
    let MTwwp := MTwwp.set 0 (Rwwp.at2 0 0)
    let MTwwp := MTwwp.set 1 (Rwwp.at2 1 0)
    let MTwwp := MTwwp.set 2 (Rwwp.at2 2 0)
    let MTwwp := MTwwp.set 4 (Rwwp.at2 0 1)
    let MTwwp := MTwwp.set 5 (Rwwp.at2 1 1)
    let MTwwp := MTwwp.set 6 (Rwwp.at2 2 1)
    let MTwwp := MTwwp.set 8 (Rwwp.at2 0 2)
    let MTwwp := MTwwp.set 9 (Rwwp.at2 1 2)
    let MTwwp := MTwwp.set 10 (Rwwp.at2 2 2)
    let MTwwp := MTwwp.set 12 (twc.at1 0)
    let MTwwp := MTwwp.set 13 (twc.at1 1)
    let MTwwp := MTwwp.set 14 (twc.at1 2)
    (M, MOw, MTwwp)
  else
    (M.SetIdentity, MOw.SetIdentity, MTwwp.SetIdentity)

/-- The 4x4 matrix an `OpenGlMatrix` stands for: entry `(r, c)` is `m[4 * c + r]`. -/
def OpenGlMatrix.toMatrix (M : OpenGlMatrix) : Matrix (Fin 4) (Fin 4) ℚ :=
  fun r c => M.m ⟨4 * c.val + r.val, by omega⟩

/-- The `cv::Mat` with the entries of a 4x4 matrix. -/
def cvMat.ofMatrix (T : Matrix (Fin 4) (Fin 4) ℚ) : cvMat :=
  ⟨[[T 0 0, T 0 1, T 0 2, T 0 3], [T 1 0, T 1 1, T 1 2, T 1 3],
    [T 2 0, T 2 1, T 2 2, T 2 3], [T 3 0, T 3 1, T 3 2, T 3 3]]⟩

/-- The rotation block of a pose: the upper left 3x3 block. -/
def rotationBlock (T : Matrix (Fin 4) (Fin 4) ℚ) : Matrix (Fin 3) (Fin 3) ℚ :=
  fun i j => T i.castSucc j.castSucc

/-- The translation of a pose: the first three entries of the last column. -/
def translationBlock (T : Matrix (Fin 4) (Fin 4) ℚ) : Fin 3 → ℚ :=
  fun i => T i.castSucc 3

/-- The matrix `[[Rᵀ, -Rᵀ t], [0 0 0 1]]` for the rotation block `R` and the translation `t` of a
pose. -/
def rigidInverse (T : Matrix (Fin 4) (Fin 4) ℚ) : Matrix (Fin 4) (Fin 4) ℚ :=
  let R := (rotationBlock T).transpose
  let v := -(R.mulVec (translationBlock T))
  !![R 0 0, R 0 1, R 0 2, v 0;
     R 1 0, R 1 1, R 1 2, v 1;
     R 2 0, R 2 1, R 2 2, v 2;
     0, 0, 0, 1]

/-- The identity matrix with the translation `v` in its last column. -/
def translationMatrix (v : Fin 3 → ℚ) : Matrix (Fin 4) (Fin 4) ℚ :=
  !![1, 0, 0, v 0;
     0, 1, 0, v 1;
     0, 0, 1, v 2;
     0, 0, 0, 1]

/-! ## What the drawer reads and emits (`MapDrawer.cc`, lines 125-644) -/

/-- The primitive modes `MapDrawer.cc` passes to `glBegin`. -/
inductive GLenum where
  | GL_POINTS
  | GL_LINES
  | GL_LINE_STRIP
  deriving DecidableEq, Repr

/-- The calls `MapDrawer.cc` makes to OpenGL and to the text font of the atlas, with their
arguments. -/
inductive GLCmd where
  | glColor3f (red green blue : ℚ)
  | glColor4f (red green blue alpha : ℚ)
  | glLineWidth (width : ℚ)
  | glPointSize (size : ℚ)
  | glBegin (mode : GLenum)
  | glEnd
  | glVertex3f (x y z : ℚ)
  | glPushMatrix
  | glPopMatrix
  | glMultMatrixf (m : List ℚ)
  | glMultMatrixd (m : List ℚ)
  | drawText (text : String) (x y z : ℚ)
  deriving DecidableEq, Repr

/-- What `MapDrawer.cc` reads of a `MapPoint` (`MapPoint.h` is missing): `isBad()` and
`GetWorldPos()`. -/
structure MapPointView where
  isBad : Bool
  GetWorldPos : cvMat
  deriving DecidableEq, Repr

/-- What `MapDrawer.cc` reads of a `MapLine` (`MapLine.h` is missing): `isBad()` and the six
coordinates of `GetWorldPos()`, start point first. -/
structure MapLineView where
  isBad : Bool
  GetWorldPos : List ℚ
  deriving DecidableEq, Repr

/-- What `MapDrawer.cc` reads of a `KeyFrame` (`KeyFrame.h` is missing): the members and the
answers of the getters it uses.  `GetCovisiblesByWeight w` is the vector the call
`GetCovisiblesByWeight(w)` returns, taken as it comes. -/
structure KeyFrameView where
  mnId : Nat
  mnOriginMapId : Nat
  GetPoseInverse : cvMat
  GetCameraCenter : cvMat
  GetParent : Nat
  mNextKF : Nat
  GetLoopEdges : List Nat
  GetCovisiblesByWeight : Int → List Nat

/-- A `std::set` of pointers built from a range: each pointer once, in ascending order, which
is the order a loop over the set visits them in. -/
def stdSet (range : List Nat) : List Nat :=
  (range.dedup).insertionSort (fun a b => a ≤ b)

/-- What `MapDrawer.cc` reads through `mpAtlas` (`Atlas.h` is missing): the answers of the
getters it calls and the objects behind the pointers they return. -/
structure AtlasView where
  GetAllMapPoints : List Nat
  GetReferenceMapPoints : List Nat
  GetAllCameraCenter : List cvMat
  GetAllMapLines : List Nat
  GetReferenceMapLines : List Nat
  GetAllMapDelaunayLine : List cvMat
  GetPersonTrack : List cvMat
  GetAllSemanticMapPoints : List (cvMat × List ℚ)
  GetAllBound3D : List (List ℚ × String)
  GetAllKeyFrames : List Nat
  isImuInitialized : Bool
  GetAllMaps : List Nat
  GetCurrentMap : Nat
  mapKeyFrames : Nat → List Nat
  mapPoint : Nat → MapPointView
  mapLine : Nat → MapLineView
  keyFrame : Nat → KeyFrameView

/-- The call `glVertex3f(pos.at<float>(0), pos.at<float>(1), pos.at<float>(2))`. -/
def vertexOf (pos : cvMat) : GLCmd :=
  .glVertex3f (pos.at1 0) (pos.at1 1) (pos.at1 2)

/-- `MapDrawer::DrawMapPoints` (lines 125-179): the calls it makes, in order. -/
def MapDrawer.DrawMapPoints (_self : MapDrawer) (atlas : AtlasView) : List GLCmd :=
  let vpMPs := atlas.GetAllMapPoints
  let vpRefMPs := atlas.GetReferenceMapPoints
  let vpCameraCenter := atlas.GetAllCameraCenter
  let spRefMPs := stdSet vpRefMPs
  if vpMPs.isEmpty then []
  else
    [.glColor3f 1 0 0, .glLineWidth 4, .glBegin .GL_LINE_STRIP]
    ++ vpCameraCenter.flatMap (fun traj => [vertexOf traj])
    ++ [.glEnd, .glPointSize (5 / 2), .glBegin .GL_POINTS, .glColor3f 1 0 0]
    ++ vpMPs.flatMap (fun p =>
        if (atlas.mapPoint p).isBad || spRefMPs.contains p then []
        else [vertexOf (atlas.mapPoint p).GetWorldPos])
    ++ [.glEnd, .glPointSize (5 / 2), .glBegin .GL_POINTS, .glColor3f 1 0 0]
    ++ spRefMPs.flatMap (fun p =>
        if (atlas.mapPoint p).isBad then []
        else [vertexOf (atlas.mapPoint p).GetWorldPos])
    ++ [.glEnd]

/-- The two `glVertex3f` calls for a line: its start point and its end point. -/
def lineVertices (sep : List ℚ) : List GLCmd :=
  [.glVertex3f (sep.getD 0 0) (sep.getD 1 0) (sep.getD 2 0),
   .glVertex3f (sep.getD 3 0) (sep.getD 4 0) (sep.getD 5 0)]

/-- `MapDrawer::DrawMapLines` (lines 181-223): the calls it makes, in order. -/
def MapDrawer.DrawMapLines (_self : MapDrawer) (atlas : AtlasView) : List GLCmd :=
  let vpMLs := atlas.GetAllMapLines
  let vpRefMLs := atlas.GetReferenceMapLines
  let spRefMLs := stdSet vpRefMLs
  if vpMLs.isEmpty then []
  else
    let mLineSize : ℚ := 1
    [.glLineWidth mLineSize, .glColor3f 0 0 0, .glBegin .GL_LINES]
    ++ vpMLs.flatMap (fun p =>
        if (atlas.mapLine p).isBad || spRefMLs.contains p then []
        else lineVertices (atlas.mapLine p).GetWorldPos)
    ++ [.glEnd, .glPointSize mLineSize, .glColor3f 0 0 0, .glBegin .GL_LINES]
    ++ spRefMLs.flatMap (fun p =>
        if (atlas.mapLine p).isBad then []
        else lineVertices (atlas.mapLine p).GetWorldPos)
    ++ [.glEnd]

/-- The two `glVertex3f` calls for a matrix of six numbers: the entries 0 to 2 and 3 to 5. -/
def pairVertices (pos : cvMat) : List GLCmd :=
  [.glVertex3f (pos.at1 0) (pos.at1 1) (pos.at1 2),
   .glVertex3f (pos.at1 3) (pos.at1 4) (pos.at1 5)]

/-- `MapDrawer::DrawMapDelaunayLines` (lines 225-262): the calls it makes, in order. -/
def MapDrawer.DrawMapDelaunayLines (_self : MapDrawer) (atlas : AtlasView) : List GLCmd :=
  let vpMPs := atlas.GetAllMapDelaunayLine
  if vpMPs.isEmpty then []
  else
    [.glPointSize 4, .glColor3f 1 0 1, .glBegin .GL_POINTS]
    ++ vpMPs.flatMap pairVertices
    ++ [.glEnd, .glLineWidth 1, .glColor3f 0 1 0, .glBegin .GL_LINES]
    ++ vpMPs.flatMap pairVertices
    ++ [.glEnd]

/-- `MapDrawer::DrawDynamicTrack` (lines 264-292): the calls it makes, in order.  The first loop
calls `glBegin(GL_POINTS)` in its body and `glEnd()` follows the loop. -/
def MapDrawer.DrawDynamicTrack (_self : MapDrawer) (atlas : AtlasView) : List GLCmd :=
  let vpPerson3D := atlas.GetPersonTrack
  [.glPointSize 5, .glColor3f 1 0 0]
  ++ vpPerson3D.flatMap (fun vP3d => [.glBegin .GL_POINTS, vertexOf vP3d])
  ++ [.glEnd, .glColor3f 0 1 1, .glLineWidth 4, .glBegin .GL_LINE_STRIP]
  ++ vpPerson3D.flatMap (fun traj => [vertexOf traj])
  ++ [.glEnd]

/-- The twenty-four `glVertex3f` calls that draw the twelve edges of a bounding box
`(x0, x1, y0, y1, z0, z1)`. -/
def boxVertices (b : List ℚ) : List GLCmd :=
  let v (i j k : Nat) : GLCmd := .glVertex3f (b.getD i 0) (b.getD j 0) (b.getD k 0)
  [v 0 2 4, v 1 2 4, v 1 2 4, v 1 2 5, v 1 2 5, v 0 2 5, v 0 2 5, v 0 2 4,
   v 0 3 4, v 1 3 4, v 1 3 4, v 1 3 5, v 1 3 5, v 0 3 5, v 0 3 5, v 0 3 4,
   v 0 2 4, v 0 3 4, v 1 2 4, v 1 3 4, v 1 2 5, v 1 3 5, v 0 2 5, v 0 3 5]

/-- `MapDrawer::DrawMapSemantic` (lines 294-377): the calls it makes, in order.  The first loop
calls `glBegin(GL_POINTS)` in its body and `glEnd()` follows the loop. -/
def MapDrawer.DrawMapSemantic (_self : MapDrawer) (atlas : AtlasView) : List GLCmd :=
  let vpSemanticMP := atlas.GetAllSemanticMapPoints
  let vpBound3D := atlas.GetAllBound3D
  [.glPointSize 4]
  ++ vpSemanticMP.flatMap (fun sMP =>
      let pos := sMP.1
      let color := sMP.2
      [.glBegin .GL_POINTS,
       .glColor3f (color.getD 0 0 / 255) (color.getD 1 0 / 255) (color.getD 2 0 / 255),
       vertexOf pos])
  ++ [.glEnd, .glLineWidth (3 / 2)]
  ++ vpBound3D.flatMap (fun vB3D =>
      [.glColor3f 1 0 1, .glBegin .GL_LINES] ++ boxVertices vB3D.1
      ++ [.glEnd, .glColor3f 0 0 1,
          .drawText vB3D.2 (vB3D.1.getD 0 0) (vB3D.1.getD 2 0) (vB3D.1.getD 4 0)])

/-- The sixteen `glVertex3f` calls that draw the eight edges of a camera frustum of half width
`w`, half height `h` and depth `z`. -/
def frustumVertices (w h z : ℚ) : List GLCmd :=
  [.glVertex3f 0 0 0, .glVertex3f w h z, .glVertex3f 0 0 0, .glVertex3f w (-h) z,
   .glVertex3f 0 0 0, .glVertex3f (-w) (-h) z, .glVertex3f 0 0 0, .glVertex3f (-w) h z,
   .glVertex3f w h z, .glVertex3f w (-h) z, .glVertex3f (-w) h z, .glVertex3f (-w) (-h) z,
   .glVertex3f (-w) h z, .glVertex3f w h z, .glVertex3f (-w) (-h) z, .glVertex3f w (-h) z]

/-- The calls of `DrawKeyFrames` that select line width and colour for a keyframe and open the
primitive: the first keyframe of a map, which has no parent, is drawn thick and red, any other
in the colour of its origin map. -/
def MapDrawer.keyFrameStyle (self : MapDrawer) (mfFrameColors : Nat → Nat → ℚ)
    (kf : KeyFrameView) : List GLCmd :=
  let index_color := kf.mnOriginMapId
  if kf.GetParent = 0 then
    [.glLineWidth (self.mKeyFrameLineWidth * 5), .glColor3f 1 0 0, .glBegin .GL_LINES]
  else
    [.glLineWidth self.mKeyFrameLineWidth,
     .glColor3f (mfFrameColors index_color 0) (mfFrameColors index_color 1)
       (mfFrameColors index_color 2),
     .glBegin .GL_LINES]

/-- The two `glVertex3f` calls that draw the segment between the camera centres of two
keyframes. -/
def segmentOf (atlas : AtlasView) (e : Nat × Nat) : List GLCmd :=
  [vertexOf (atlas.keyFrame e.1).GetCameraCenter, vertexOf (atlas.keyFrame e.2).GetCameraCenter]

/-- The covisibility part of the graph loop of `DrawKeyFrames` (lines 479-492) for the keyframe
`pKF`: the calls it makes, in order. -/
def covisibilityCalls (atlas : AtlasView) (pKF : Nat) : List GLCmd :=
  let vCovKFs := (atlas.keyFrame pKF).GetCovisiblesByWeight 100
  let Ow := (atlas.keyFrame pKF).GetCameraCenter
  vCovKFs.flatMap (fun vit =>
    if (atlas.keyFrame vit).mnId < (atlas.keyFrame pKF).mnId then []
    else
      let Ow2 := (atlas.keyFrame vit).GetCameraCenter
      [vertexOf Ow, vertexOf Ow2])

/-- The spanning-tree part of the graph loop of `DrawKeyFrames` (lines 494-501) for the keyframe
`pKF`: the calls it makes, in order. -/
def spanningTreeCalls (atlas : AtlasView) (pKF : Nat) : List GLCmd :=
  let Ow := (atlas.keyFrame pKF).GetCameraCenter
  let pParent := (atlas.keyFrame pKF).GetParent
  if pParent ≠ 0 then
    let Owp := (atlas.keyFrame pParent).GetCameraCenter
    [vertexOf Ow, vertexOf Owp]
  else []

/-- The loop-edge part of the graph loop of `DrawKeyFrames` (lines 503-512) for the keyframe
`pKF`: the calls it makes, in order. -/
def loopEdgeCalls (atlas : AtlasView) (pKF : Nat) : List GLCmd :=
  let Ow := (atlas.keyFrame pKF).GetCameraCenter
  let sLoopKFs := stdSet (atlas.keyFrame pKF).GetLoopEdges
  sLoopKFs.flatMap (fun sit =>
    if (atlas.keyFrame sit).mnId < (atlas.keyFrame pKF).mnId then []
    else
      let Owl := (atlas.keyFrame sit).GetCameraCenter
      [vertexOf Ow, vertexOf Owl])

/-- The body of the graph loop of `DrawKeyFrames` (lines 477-513) for one keyframe: the
covisibility graph, the spanning tree and the loop edges. -/
def graphOfKeyFrame (atlas : AtlasView) (pKF : Nat) : List GLCmd :=
  covisibilityCalls atlas pKF ++ spanningTreeCalls atlas pKF ++ loopEdgeCalls atlas pKF

/-- `MapDrawer::DrawKeyFrames` (lines 379-602): the calls it makes, in order.  `mfFrameColors`
is the colour table of the missing `MapDrawer.h`.  In the first loop a second `glEnd()` follows
`glPopMatrix()`. -/
def MapDrawer.DrawKeyFrames (self : MapDrawer) (mfFrameColors : Nat → Nat → ℚ)
    (atlas : AtlasView) (bDrawKF bDrawGraph bDrawInertialGraph : Bool) : List GLCmd :=
  let w := self.mKeyFrameSize
  let h := w * (3 / 4)
  let z := w * (3 / 5)
  let vpKFs := atlas.GetAllKeyFrames
  (if bDrawKF then
    vpKFs.flatMap (fun pKF =>
      let Twc := (atlas.keyFrame pKF).GetPoseInverse.t
      [.glPushMatrix, .glMultMatrixf Twc.rows.flatten]
      ++ self.keyFrameStyle mfFrameColors (atlas.keyFrame pKF)
      ++ frustumVertices w h z
      ++ [.glEnd, .glPopMatrix, .glEnd])
   else [])
  ++ (if bDrawGraph then
    [.glLineWidth self.mGraphLineWidth, .glColor4f 0 1 0 (3 / 5), .glBegin .GL_LINES]
    ++ vpKFs.flatMap (graphOfKeyFrame atlas)
    ++ [.glEnd]
   else [])
  ++ (if bDrawInertialGraph && atlas.isImuInitialized then
    [.glLineWidth self.mGraphLineWidth, .glColor4f 1 0 0 (3 / 5), .glBegin .GL_LINES]
    ++ vpKFs.flatMap (fun pKFi =>
        let pNext := (atlas.keyFrame pKFi).mNextKF
        if pNext ≠ 0 then segmentOf atlas (pKFi, pNext) else [])
    ++ [.glEnd]
   else [])
  ++ (if bDrawKF then
    atlas.GetAllMaps.flatMap (fun pMap =>
      if pMap = atlas.GetCurrentMap then []
      else
        (atlas.mapKeyFrames pMap).flatMap (fun pKF =>
          let Twc := (atlas.keyFrame pKF).GetPoseInverse.t
          [.glPushMatrix, .glMultMatrixf Twc.rows.flatten]
          ++ self.keyFrameStyle mfFrameColors (atlas.keyFrame pKF)
          ++ frustumVertices w h z
          ++ [.glEnd, .glPopMatrix]))
   else [])

/-- `MapDrawer::DrawCurrentCamera` (lines 604-644), built without `HAVE_GLES`: the calls it
makes, in order. -/
def MapDrawer.DrawCurrentCamera (self : MapDrawer) (Twc : OpenGlMatrix) : List GLCmd :=
  let w := self.mCameraSize
  let h := w * (3 / 4)
  let z := w * (3 / 5)
  [.glPushMatrix, .glMultMatrixd (List.ofFn Twc.m), .glLineWidth self.mCameraLineWidth,
   .glColor3f 0 1 0, .glBegin .GL_LINES]
  ++ frustumVertices w h z
  ++ [.glEnd, .glPopMatrix]

/-- Whether a sequence of calls is well bracketed when it starts with a primitive open (`true`)
or closed (`false`): `glBegin` only while closed, `glEnd` only while open, and closed at the
end. -/
def wellBracketedFrom : Bool → List GLCmd → Bool
  | isOpen, [] => !isOpen
  | isOpen, .glBegin _ :: rest => !isOpen && wellBracketedFrom true rest
  | isOpen, .glEnd :: rest => isOpen && wellBracketedFrom false rest
  | isOpen, _ :: rest => wellBracketedFrom isOpen rest

/-- Whether a sequence of calls, started outside any primitive, is well bracketed: every
`glBegin` is closed by one `glEnd` before the next `glBegin`, and no `glEnd` comes without an
open `glBegin`. -/
def wellBracketed (cmds : List GLCmd) : Bool :=
  wellBracketedFrom false cmds

/-- The vertices a sequence of calls emits inside primitives of the given mode, in order;
`current` is the mode of the primitive that is open at the start, if any. -/
def verticesIn (mode : GLenum) : Option GLenum → List GLCmd → List (ℚ × ℚ × ℚ)
  | _, [] => []
  | _, .glBegin m :: rest => verticesIn mode (some m) rest
  | _, .glEnd :: rest => verticesIn mode none rest
  | current, .glVertex3f x y z :: rest =>
    (if current = some mode then [(x, y, z)] else []) ++ verticesIn mode current rest
  | current, _ :: rest => verticesIn mode current rest

/-- The three coordinates `glVertex3f` is called with for a position. -/
def coordinatesOf (pos : cvMat) : ℚ × ℚ × ℚ :=
  (pos.at1 0, pos.at1 1, pos.at1 2)

/-- The map points `DrawMapPoints` emits a vertex for, in the order of emission: the points of
the first pass followed by the points of the second pass. -/
def drawnMapPoints (atlas : AtlasView) : List Nat :=
  atlas.GetAllMapPoints.filter (fun p =>
    !((atlas.mapPoint p).isBad || (stdSet atlas.GetReferenceMapPoints).contains p))
  ++ (stdSet atlas.GetReferenceMapPoints).filter (fun p => !(atlas.mapPoint p).isBad)

/-- Whether a call opens or closes a primitive. -/
def GLCmd.isBracket : GLCmd → Bool
  | .glBegin _ => true
  | .glEnd => true
  | _ => false

/-- The calls `DrawKeyFrames` makes in the covisibility part of the graph: the calls of the
covisibility part of the graph loop for every keyframe of the atlas, in order. -/
def covisibilityPart (atlas : AtlasView) : List GLCmd :=
  atlas.GetAllKeyFrames.flatMap (covisibilityCalls atlas)

/-- The segments a sequence of vertex calls draws in `GL_LINES` mode: the calls two by two. -/
def segmentsOf : List GLCmd → List (GLCmd × GLCmd)
  | a :: b :: rest => (a, b) :: segmentsOf rest
  | _ => []

/-- The segment between the camera centres of two keyframes, as the pair of vertex calls that
draws it. -/
def segmentCalls (atlas : AtlasView) (a b : Nat) : GLCmd × GLCmd :=
  (vertexOf (atlas.keyFrame a).GetCameraCenter, vertexOf (atlas.keyFrame b).GetCameraCenter)

/-- The ordered pairs of covisible keyframes of the atlas: the first a keyframe of the atlas,
the second in the vector `GetCovisiblesByWeight(100)` returns for the first. -/
def covisiblePairs (atlas : AtlasView) : List (Nat × Nat) :=
  atlas.GetAllKeyFrames.flatMap (fun x =>
    ((atlas.keyFrame x).GetCovisiblesByWeight 100).map (fun y => (x, y)))

/-- The ordered pairs of covisible keyframes whose first keyframe has an id no greater than the
id of the second, in the order of `covisiblePairs`. -/
def covisiblePairsFromSmallerId (atlas : AtlasView) : List (Nat × Nat) :=
  (covisiblePairs atlas).filter (fun e =>
    decide ((atlas.keyFrame e.1).mnId ≤ (atlas.keyFrame e.2).mnId))

/-! ## Example inputs -/

/-- A drawer before construction, every member zero. -/
def blankDrawer : MapDrawer :=
  ⟨0, 0, 0, 0, 0, 0, 0, ⟨[]⟩⟩

/-- A settings file that gives the six viewer parameters as real numbers. -/
def viewerSettings : FileStorage :=
  ⟨[("Viewer.KeyFrameSize", .real (1 / 20)), ("Viewer.KeyFrameLineWidth", .real 1),
    ("Viewer.GraphLineWidth", .real (9 / 10)), ("Viewer.PointSize", .real 2),
    ("Viewer.CameraSize", .real (2 / 25)), ("Viewer.CameraLineWidth", .real 3)]⟩

/-- A settings file without `Viewer.PointSize`. -/
def settingsWithoutPointSize : FileStorage :=
  ⟨[("Viewer.KeyFrameSize", .real (1 / 20)), ("Viewer.KeyFrameLineWidth", .real 1),
    ("Viewer.GraphLineWidth", .real (9 / 10)),
    ("Viewer.CameraSize", .real (2 / 25)), ("Viewer.CameraLineWidth", .real 3)]⟩

/-- A settings file whose `Viewer.KeyFrameSize` is a text, the other five real numbers. -/
def settingsWithTextSize : FileStorage :=
  ⟨[("Viewer.KeyFrameSize", .str "large"), ("Viewer.KeyFrameLineWidth", .real 1),
    ("Viewer.GraphLineWidth", .real (9 / 10)), ("Viewer.PointSize", .real 2),
    ("Viewer.CameraSize", .real (2 / 25)), ("Viewer.CameraLineWidth", .real 3)]⟩

/-- Thresholds for the examples: at least 10 inliers for a pose, fewer than 15 critically low,
50 landmarks for a bootstrap map, at most 3 keyframes queued at the mapping collaborator. -/
def demoThresholds : Thresholds where
  minInliers := 10
  criticalInliers := 15
  minLandmarks := 50
  queueDepthLimit := 3
  trustNum := 1
  trustDen := 2
  qualityNum := 9
  qualityDen := 10
  covisibilityWeight := 15
  gracePeriod := 5
  inertial := false

/-- The pose of a camera at the world origin. -/
def identityPose : Pose :=
  ⟨[[1, 0, 0], [0, 1, 0], [0, 0, 1]], [0, 0, 0]⟩

/-- A mapping collaborator that is busy with five keyframes queued. -/
def backloggedMapper : LocalMapping :=
  ⟨false, 5⟩

/-- A session in state `OK`, twelve frames after its last keyframe, with the given inlier
counts of points and of lines. -/
def demoSession (inliers inliers_l : Int) : Tracking :=
  { Tracking.initial 2 0 30 with
    mState := .OK
    mCurrentFrame := ⟨12, 12, some identityPose, 1⟩
    mnMatchesInliers := inliers
    mnMatchesInliers_l := inliers_l }

/-- A frame on which no collaborator produces anything: no bootstrap map and no pose from any
strategy. -/
def blindFrame (timestamp : ℚ) : FrameInput where
  timestamp := timestamp
  bootstrap := none
  inertialPrediction := none
  motionModel := none
  referenceKeyFrame := none
  relocalization := none
  localMap := ⟨identityPose, 0, 0⟩
  quality := ⟨0, 0⟩
  newKeyFrame := ⟨0, 0, [], [], [], none, []⟩
  mapper := ⟨true, 0⟩

/-- Landmark records with the handles 1 to `n`, each observed by the keyframe with handle 1. -/
def demoLandmarks (n : Nat) : List Landmark :=
  (List.range n).map (fun i => ⟨i + 1, [1], false⟩)

/-- A frame from which the initializer builds a bootstrap map of one keyframe and sixty point
landmarks. -/
def bootstrapFrame (timestamp : ℚ) : FrameInput :=
  { blindFrame timestamp with
    bootstrap := some ⟨identityPose,
      [⟨1, 0, (List.range 60).map (fun i => i + 1), [], [], none, []⟩], demoLandmarks 60, []⟩ }

/-- A session whose map has one keyframe observing the points 1, 2, 3 and the lines 7, 8, of
which the point 2 and the line 7 are flagged bad; the keyframe is the reference keyframe and the
only local keyframe, and the local sets still list every observed landmark. -/
def demoMapSession : Tracking :=
  { Tracking.initial 2 0 30 with
    mState := .OK
    mpReferenceKF := 1
    mvpLocalKeyFrames := [1]
    mvpLocalMapPoints := [1, 2, 3]
    mvpLocalMapLines := [7, 8]
    mpAtlas := ⟨[⟨1, 0, [1, 2, 3], [7, 8], [], none, []⟩],
                [⟨1, [1], false⟩, ⟨2, [1], true⟩, ⟨3, [1], false⟩],
                [⟨7, [1], true⟩, ⟨8, [1], false⟩]⟩ }

/-- A world-to-camera pose: a quarter turn about the third axis and the translation
`(1, 2, 3)`. -/
def quarterTurnPose : Matrix (Fin 4) (Fin 4) ℚ :=
  !![0, -1, 0, 1;
     1, 0, 0, 2;
     0, 0, 1, 3;
     0, 0, 0, 1]

/-- An `OpenGlMatrix` with every entry seven, standing for the content before a call. -/
def staleMatrix : OpenGlMatrix :=
  ⟨fun _ => 7⟩

/-- An atlas without any content: one map, the current one, with nothing in it. -/
def emptyAtlasView : AtlasView where
  GetAllMapPoints := []
  GetReferenceMapPoints := []
  GetAllCameraCenter := []
  GetAllMapLines := []
  GetReferenceMapLines := []
  GetAllMapDelaunayLine := []
  GetPersonTrack := []
  GetAllSemanticMapPoints := []
  GetAllBound3D := []
  GetAllKeyFrames := []
  isImuInitialized := false
  GetAllMaps := [1]
  GetCurrentMap := 1
  mapKeyFrames := fun _ => []
  mapPoint := fun _ => ⟨false, ⟨[[0], [0], [0]]⟩⟩
  mapLine := fun _ => ⟨false, [0, 0, 0, 0, 0, 0]⟩
  keyFrame := fun _ => ⟨0, 0, ⟨[]⟩, ⟨[[0], [0], [0]]⟩, 0, 0, [], fun _ => []⟩

/-- An atlas whose person track has two positions. -/
def twoPersonAtlas : AtlasView :=
  { emptyAtlasView with GetPersonTrack := [⟨[[1], [0], [2]]⟩, ⟨[[1], [0], [3]]⟩] }

/-- An atlas with two semantic map points. -/
def twoSemanticAtlas : AtlasView :=
  { emptyAtlasView with
    GetAllSemanticMapPoints := [(⟨[[1], [0], [2]]⟩, [255, 0, 0]), (⟨[[1], [0], [3]]⟩, [0, 255, 0])] }

/-- An atlas with a single keyframe, which has no parent. -/
def oneKeyFrameAtlas : AtlasView :=
  { emptyAtlasView with GetAllKeyFrames := [1] }

/-- An atlas with the map points 1, 2, 3 and the reference map points 3, 4, 4, of which the
point 2 is bad; the point with handle `p` lies at `(p, 0, 0)`. -/
def pointsAtlas : AtlasView :=
  { emptyAtlasView with
    GetAllMapPoints := [1, 2, 3]
    GetReferenceMapPoints := [3, 4, 4]
    mapPoint := fun p =>
      if p = 1 then ⟨false, ⟨[[1], [0], [0]]⟩⟩
      else if p = 2 then ⟨true, ⟨[[2], [0], [0]]⟩⟩
      else if p = 3 then ⟨false, ⟨[[3], [0], [0]]⟩⟩
      else ⟨false, ⟨[[4], [0], [0]]⟩⟩ }

/-- An atlas with the keyframes 1, 2, 3 of ids 10, 20, 30 and camera centres `(0, 0, 0)`,
`(1, 0, 0)` and `(2, 0, 0)`: the keyframes 1 and 2 are covisible with weight at least 100, and
so are the keyframes 2 and 3; the keyframes 1 and 3 are not. -/
def graphAtlas : AtlasView :=
  { emptyAtlasView with
    GetAllKeyFrames := [1, 2, 3]
    keyFrame := fun p =>
      if p = 1 then ⟨10, 0, ⟨[]⟩, ⟨[[0], [0], [0]]⟩, 0, 2, [], fun _ => [2]⟩
      else if p = 2 then ⟨20, 0, ⟨[]⟩, ⟨[[1], [0], [0]]⟩, 1, 3, [], fun _ => [1, 3]⟩
      else ⟨30, 0, ⟨[]⟩, ⟨[[2], [0], [0]]⟩, 2, 0, [], fun _ => [2]⟩ }

/-! ## Theorems: tracking states -/

/-- C1, as stated, fails: the header declares a seventh tracking state, `OK_KLT`, which is none
of the six states the specification lists. -/
theorem eTrackingState_not_only_six : ¬ ∀ s : eTrackingState, s ∈ specStates := by
  intro h
  exact absurd (h .OK_KLT) (by decide)

/-- C1, amended: the tracking state type has exactly seven values, the six states of the
specification and `OK_KLT`; the seven are pairwise distinct, with the integer values -1 to 5. -/
theorem eTrackingState_seven_states :
    (∀ s : eTrackingState, s ∈ specStates ∨ s = .OK_KLT) ∧
    eTrackingState.all = specStates ++ [.OK_KLT] ∧
    eTrackingState.all.Nodup ∧ specStates.length = 6 ∧
    eTrackingState.all.map eTrackingState.toInt = [-1, 0, 1, 2, 3, 4, 5] := by
  refine ⟨?_, rfl, by decide, rfl, rfl⟩
  intro s
  cases s <;> decide

/-! ## Theorems: viewer settings -/

/-- After one block of `ParseViewerParamFile` the flag is raised exactly when it was raised
before or the parameter of the block is missing. -/
theorem parseViewerParam_b_miss_params (fSettings : FileStorage) (param : String)
    (assign : MapDrawer → ℚ → MapDrawer) (st : ParseState) :
    (parseViewerParam fSettings param assign st).b_miss_params
      = (st.b_miss_params || (fSettings.get param).empty) := by
  unfold parseViewerParam
  cases h : (fSettings.get param).empty <;> simp [h]

/-- The flag `b_miss_params` at the `return` of `ParseViewerParamFile`: raised exactly when one
of the six parameters has an empty node. -/
theorem run_b_miss_params (self : MapDrawer) (cerr : List String) (fSettings : FileStorage) :
    (ParseViewerParamFile.run self cerr fSettings).b_miss_params
      = viewerParams.any (fun p => (fSettings.get p).empty) := by
  simp only [ParseViewerParamFile.run, parseViewerParam_b_miss_params, viewerParams,
    List.any_cons, List.any_nil, Bool.false_or, Bool.or_false, Bool.or_assoc]

/-- The node of a parameter is empty exactly when no top-level entry carries its name. -/
theorem get_empty_iff (fSettings : FileStorage) (param : String) :
    (fSettings.get param).empty = true ↔ ∀ e ∈ fSettings.entries, e.1 ≠ param := by
  simp [FileStorage.get, FileNode.empty, List.find?_eq_none]

/-- A node that holds a real number is not empty. -/
theorem not_empty_of_isReal (node : FileNode) (h : node.isReal = true) : node.empty = false := by
  unfold FileNode.isReal at h
  unfold FileNode.empty
  cases hv : node.val with
  | none => simp [hv] at h
  | some v => rfl

/-- When one of the six parameters is missing from the settings, the flag `b_miss_params` is
raised at the `return` of `ParseViewerParamFile`. -/
theorem run_b_miss_params_of_missing (self : MapDrawer) (cerr : List String)
    (fSettings : FileStorage) (h : ∃ p ∈ viewerParams, ∀ e ∈ fSettings.entries, e.1 ≠ p) :
    (ParseViewerParamFile.run self cerr fSettings).b_miss_params = true := by
  obtain ⟨p, hp, hmiss⟩ := h
  rw [run_b_miss_params, List.any_eq_true]
  exact ⟨p, hp, (get_empty_iff fSettings p).2 hmiss⟩

/-- `ParseViewerParamFile` returns true exactly when each of the six parameters has a node. -/
theorem ParseViewerParamFile_eq (self : MapDrawer) (fSettings : FileStorage) :
    ParseViewerParamFile self fSettings
      = viewerParams.all (fun p => !(fSettings.get p).empty) := by
  unfold ParseViewerParamFile
  rw [run_b_miss_params]
  simp [viewerParams]

/-- C9: `ParseViewerParamFile` returns false whenever one of the six viewer parameters is
missing from the settings, and returns true when all six are present as real numbers. -/
theorem ParseViewerParamFile_missing_or_real (self : MapDrawer) (fSettings : FileStorage) :
    ((∃ p ∈ viewerParams, ∀ e ∈ fSettings.entries, e.1 ≠ p) →
        ParseViewerParamFile self fSettings = false) ∧
    ((∀ p ∈ viewerParams, (fSettings.get p).isReal = true) →
        ParseViewerParamFile self fSettings = true) := by
  constructor
  · intro hmiss
    unfold ParseViewerParamFile
    rw [run_b_miss_params_of_missing self [] fSettings hmiss]
    rfl
  · intro hreal
    rw [ParseViewerParamFile_eq, List.all_eq_true]
    intro p hp
    simp [not_empty_of_isReal _ (hreal p hp)]

/-- C9 at concrete settings: without `Viewer.PointSize` the parse returns false, and with the
six parameters as real numbers it returns true. -/
theorem ParseViewerParamFile_missing_or_real_witness :
    ParseViewerParamFile blankDrawer settingsWithoutPointSize = false ∧
    ParseViewerParamFile blankDrawer viewerSettings = true :=
  ⟨(ParseViewerParamFile_missing_or_real blankDrawer settingsWithoutPointSize).1
      ⟨"Viewer.PointSize", by decide, by decide⟩,
   (ParseViewerParamFile_missing_or_real blankDrawer viewerSettings).2 (by decide)⟩

/-- C10 fails on the code: with `Viewer.KeyFrameSize` given as a text, not a real number, and
the other five parameters present, `ParseViewerParamFile` returns true, writes no diagnostic and
stores what `node.real()` yields for the text node as the keyframe size. -/
theorem ParseViewerParamFile_accepts_text :
    (settingsWithTextSize.get "Viewer.KeyFrameSize").empty = false ∧
    (settingsWithTextSize.get "Viewer.KeyFrameSize").isReal = false ∧
    ParseViewerParamFile blankDrawer settingsWithTextSize = true ∧
    (ParseViewerParamFile.run blankDrawer [] settingsWithTextSize).cerr = [] ∧
    (ParseViewerParamFile.run blankDrawer [] settingsWithTextSize).self.mKeyFrameSize
      = (settingsWithTextSize.get "Viewer.KeyFrameSize").real := by
  refine ⟨by decide, by decide, by decide, by decide, ?_⟩
  simp [ParseViewerParamFile.run, parseViewerParam, settingsWithTextSize, FileStorage.get,
    FileNode.empty, FileNode.real]

/-- C6: when one of the six viewer parameters is missing from the settings, the constructor of
`MapDrawer` does not return a drawer: the `int` -1 it throws passes the `catch(exception &e)`
clause and leaves the constructor, after the error line has been written. -/
theorem ctor_missing_param_throws (uninit : MapDrawer) (pAtlas : Nat) (fSettings : FileStorage)
    (h : ∃ p ∈ viewerParams, ∀ e ∈ fSettings.entries, e.1 ≠ p) :
    (MapDrawer.ctor uninit pAtlas fSettings).outcome = .error (.int (-1)) ∧
    "**ERROR in the config file, the format is not correct**"
      ∈ (MapDrawer.ctor uninit pAtlas fSettings).cerr := by
  have hmiss := run_b_miss_params_of_missing
    { uninit with mpAtlas := pAtlas, mCameraPose := ⟨[]⟩ } [] fSettings h
  simp [MapDrawer.ctor, hmiss, tryCatchException]

/-- C6 at concrete settings: constructing a drawer from the settings without
`Viewer.PointSize` throws the `int` -1. -/
theorem ctor_missing_param_throws_witness :
    (∃ p ∈ viewerParams, ∀ e ∈ settingsWithoutPointSize.entries, e.1 ≠ p) ∧
    (MapDrawer.ctor blankDrawer 1 settingsWithoutPointSize).outcome = .error (.int (-1)) :=
  ⟨⟨"Viewer.PointSize", by decide, by decide⟩,
   (ctor_missing_param_throws blankDrawer 1 settingsWithoutPointSize
      ⟨"Viewer.PointSize", by decide, by decide⟩).1⟩

/-- With the six parameters present the constructor returns the drawer filled from the
settings. -/
theorem ctor_complete_settings_ok :
    (MapDrawer.ctor blankDrawer 1 viewerSettings).outcome
      = .ok ⟨1, 1 / 20, 1, 9 / 10, 2, 2 / 25, 3, ⟨[]⟩⟩ := by
  simp [MapDrawer.ctor, ParseViewerParamFile.run, parseViewerParam, viewerSettings,
    FileStorage.get, FileNode.empty, FileNode.real, blankDrawer]

/-! ## Theorems: session accessors and keyframe decision -/

/-- C7: `GetLastKeyFrame` returns the last-keyframe reference `mpLastKeyFrame` of the session
and leaves the session state as it was. -/
theorem GetLastKeyFrame_returns_mpLastKeyFrame (self : Tracking) :
    self.GetLastKeyFrame.1 = self.mpLastKeyFrame ∧ self.GetLastKeyFrame.2 = self :=
  ⟨rfl, rfl⟩

/-- The keyframe decision rejects when mapping is backlogged beyond the limit and the inlier
count is not critically low. -/
theorem keyFrameDecision_backlogged (cfg : Thresholds) (self : Tracking) (mapper : LocalMapping)
    (q : TrackingQuality) (inliers : Int) (hq : cfg.queueDepthLimit < mapper.queueDepth)
    (hc : criticalInlierLoss cfg inliers = false) :
    keyFrameDecision cfg self mapper q inliers = false := by
  unfold keyFrameDecision
  simp [hq, hc]

/-- C2: when the queue depth of the mapping collaborator exceeds the configured limit,
`NeedNewKeyFrame` and `NeedNewKeyFrameWithLines` return false unless the critical-inlier-loss
condition holds for the inlier count they decide on. -/
theorem NeedNewKeyFrame_backpressure (cfg : Thresholds) (self : Tracking) (mapper : LocalMapping)
    (q : TrackingQuality) (hq : cfg.queueDepthLimit < mapper.queueDepth) :
    (criticalInlierLoss cfg self.mnMatchesInliers = false →
      self.NeedNewKeyFrame cfg mapper q = false) ∧
    (criticalInlierLoss cfg (self.mnMatchesInliers + self.mnMatchesInliers_l) = false →
      self.NeedNewKeyFrameWithLines cfg mapper q = false) :=
  ⟨fun hc => keyFrameDecision_backlogged cfg self mapper q _ hq hc,
   fun hc => keyFrameDecision_backlogged cfg self mapper q _ hq hc⟩

/-- C2 at a concrete session: five keyframes queued against a limit of three and 40 point
inliers (20 line inliers), not critically low, give no new keyframe. -/
theorem NeedNewKeyFrame_backpressure_witness :
    demoThresholds.queueDepthLimit < backloggedMapper.queueDepth ∧
    (demoSession 40 20).NeedNewKeyFrame demoThresholds backloggedMapper ⟨50, 60⟩ = false ∧
    (demoSession 40 20).NeedNewKeyFrameWithLines demoThresholds backloggedMapper ⟨50, 60⟩
      = false :=
  ⟨by decide,
   (NeedNewKeyFrame_backpressure demoThresholds (demoSession 40 20) backloggedMapper ⟨50, 60⟩
      (by decide)).1 (by decide),
   (NeedNewKeyFrame_backpressure demoThresholds (demoSession 40 20) backloggedMapper ⟨50, 60⟩
      (by decide)).2 (by decide)⟩

/-- The exception of the backpressure rule is live: with the same backlog and a critically low
but trustworthy inlier count the decision is to insert, and without the backlog the 40 inliers
of the example above lead to an insertion as well. -/
theorem NeedNewKeyFrame_forced_example :
    (demoSession 12 0).NeedNewKeyFrame demoThresholds backloggedMapper ⟨20, 60⟩ = true ∧
    (demoSession 40 20).NeedNewKeyFrame demoThresholds ⟨true, 0⟩ ⟨50, 60⟩ = true := by
  constructor <;> decide

/-! ## Theorems: the tracking step -/

/-- Recording the pose changes neither the state, nor the map, nor the current frame. -/
theorem recordPose_keeps (self : Tracking) :
    self.recordPose.mState = self.mState ∧ self.recordPose.mpAtlas = self.mpAtlas ∧
    self.recordPose.mCurrentFrame = self.mCurrentFrame := by
  unfold Tracking.recordPose
  cases self.mCurrentFrame.mTcw <;> simp

/-- A map initialization that leaves `NOT_INITIALIZED` has stored a keyframe in the map. -/
theorem Initialization_exit (cfg : Thresholds) (self : Tracking) (inp : FrameInput)
    (h0 : self.mState = .NOT_INITIALIZED)
    (h : (self.Initialization cfg inp).mState ≠ .NOT_INITIALIZED) :
    1 ≤ (self.Initialization cfg inp).mpAtlas.keyframes.length := by
  unfold Tracking.Initialization at h ⊢
  cases hb : inp.bootstrap with
  | none => simp [hb, h0] at h
  | some b =>
    simp only [hb] at h ⊢
    split_ifs at h ⊢ with hc
    · simp only [List.length_append]
      omega
    · exact absurd h0 h

/-- A map initialization that ends in `OK` has given the frame a pose. -/
theorem Initialization_ok (cfg : Thresholds) (self : Tracking) (inp : FrameInput)
    (h0 : self.mState ≠ .OK) (h : (self.Initialization cfg inp).mState = .OK) :
    (self.Initialization cfg inp).mCurrentFrame.mTcw.isSome = true := by
  unfold Tracking.Initialization at h ⊢
  cases hb : inp.bootstrap with
  | none => simp [hb] at h; exact absurd h h0
  | some b =>
    simp only [hb] at h ⊢
    split_ifs at h ⊢ with hc
    · rfl
    · exact absurd h h0

/-- A pose estimation that ends in `OK`, when its failure state is not `OK`, has given the frame
a pose. -/
theorem estimate_ok (cfg : Thresholds) (self : Tracking) (inp : FrameInput)
    (chain : List (Option PoseEstimate)) (onFailure : eTrackingState) (hf : onFailure ≠ .OK)
    (h : (self.estimate cfg inp chain onFailure).mState = .OK) :
    (self.estimate cfg inp chain onFailure).mCurrentFrame.mTcw.isSome = true := by
  unfold Tracking.estimate at h ⊢
  cases hp : poseEstimator cfg chain with
  | none => simp [hp] at h; exact absurd h hf
  | some e =>
    simp only [hp] at h ⊢
    split_ifs at h ⊢
    all_goals rfl

/-- The state rules leave `NOT_INITIALIZED` only with a keyframe in the map. -/
theorem transition_exit (cfg : Thresholds) (self : Tracking) (inp : FrameInput)
    (h0 : self.mState = .NOT_INITIALIZED)
    (h : (self.transition cfg inp).mState ≠ .NOT_INITIALIZED) :
    1 ≤ (self.transition cfg inp).mpAtlas.keyframes.length := by
  have ht : self.transition cfg inp = self.Initialization cfg inp := by
    unfold Tracking.transition
    rw [h0]
  rw [ht] at h ⊢
  exact Initialization_exit cfg self inp h0 h

/-- The state rules end in `OK` only with a pose for the current frame. -/
theorem transition_ok (cfg : Thresholds) (self : Tracking) (inp : FrameInput)
    (h : (self.transition cfg inp).mState = .OK) :
    (self.transition cfg inp).mCurrentFrame.mTcw.isSome = true := by
  unfold Tracking.transition at h ⊢
  cases hs : self.mState with
  | NO_IMAGES_YET => simp [hs] at h
  | NOT_INITIALIZED =>
    simp only [hs] at h ⊢
    exact Initialization_ok cfg self inp (by simp [hs]) h
  | OK =>
    simp only [hs] at h ⊢
    exact estimate_ok cfg self inp _ _ (by decide) h
  | RECENTLY_LOST =>
    simp only [hs] at h ⊢
    by_cases hg : cfg.gracePeriod < self.mCurrentFrame.mTimeStamp - self.mTimeStampLost
    · rw [if_pos hg] at h
      simp at h
    · rw [if_neg hg] at h ⊢
      exact estimate_ok cfg self inp _ _ (by decide) h
  | LOST =>
    simp only [hs] at h ⊢
    by_cases hi : cfg.inertial = true
    · rw [if_pos hi] at h ⊢
      exact estimate_ok cfg self inp _ _ (by decide) h
    · rw [if_neg hi] at h
      simp at h
  | SYSTEM_NOT_READY => simp [hs] at h
  | OK_KLT => simp [hs] at h

/-- The state, the map and the current frame after `GrabImage` are those the state rules
produce on the new frame. -/
theorem GrabImage_eq_transition (cfg : Thresholds) (self : Tracking) (inp : FrameInput) :
    ∃ pre : Tracking, pre.mState = self.mState ∧
      (self.GrabImage cfg inp).2.mState = (pre.transition cfg inp).mState ∧
      (self.GrabImage cfg inp).2.mpAtlas = (pre.transition cfg inp).mpAtlas ∧
      (self.GrabImage cfg inp).2.mCurrentFrame = (pre.transition cfg inp).mCurrentFrame := by
  refine ⟨{ self with
    mCurrentFrame := ⟨self.mCurrentFrame.mnId + 1, inp.timestamp, none, self.mpReferenceKF⟩,
    mLastProcessedState := self.mState }, rfl, ?_, ?_, ?_⟩
  · exact (recordPose_keeps _).1
  · exact (recordPose_keeps _).2.1
  · exact (recordPose_keeps _).2.2

/-- C3: in every reachable session state, a tracking step leaves `NOT_INITIALIZED` only when the
map then holds at least one keyframe, and ends in `OK` only when the current frame has a valid
pose.  The proof does not use how the state was reached. -/
theorem Track_state_machine_safety (cfg : Thresholds) (self : Tracking)
    (_hreach : Tracking.Reachable cfg self) (inp : FrameInput) :
    (self.mState = .NOT_INITIALIZED →
      (self.GrabImage cfg inp).2.mState ≠ .NOT_INITIALIZED →
      1 ≤ (self.GrabImage cfg inp).2.mpAtlas.keyframes.length) ∧
    ((self.GrabImage cfg inp).2.mState = .OK →
      (self.GrabImage cfg inp).2.mCurrentFrame.mTcw.isSome = true) := by
  obtain ⟨pre, hpre, hstate, hatlas, hframe⟩ := GrabImage_eq_transition cfg self inp
  constructor
  · intro h0 hexit
    rw [hatlas]
    rw [hstate] at hexit
    exact transition_exit cfg pre inp (hpre.trans h0) hexit
  · intro hok
    rw [hframe]
    rw [hstate] at hok
    exact transition_ok cfg pre inp hok

/-- C3 at a concrete session: after a first frame the session is in `NOT_INITIALIZED`; a frame
with a bootstrap map leaves that state for `OK`, with one keyframe in the map and a pose for the
frame. -/
theorem Track_state_machine_safety_witness :
    ((Tracking.initial 2 0 30).GrabImage demoThresholds (blindFrame 1)).2.mState
      = .NOT_INITIALIZED ∧
    ((((Tracking.initial 2 0 30).GrabImage demoThresholds (blindFrame 1)).2.GrabImage
      demoThresholds (bootstrapFrame 2)).2.mState = .OK) ∧
    1 ≤ ((((Tracking.initial 2 0 30).GrabImage demoThresholds (blindFrame 1)).2.GrabImage
      demoThresholds (bootstrapFrame 2)).2.mpAtlas.keyframes.length) ∧
    ((((Tracking.initial 2 0 30).GrabImage demoThresholds (blindFrame 1)).2.GrabImage
      demoThresholds (bootstrapFrame 2)).2.mCurrentFrame.mTcw.isSome = true) :=
  ⟨by decide, by decide,
   (Track_state_machine_safety demoThresholds
      ((Tracking.initial 2 0 30).GrabImage demoThresholds (blindFrame 1)).2
      (Tracking.Reachable.grab (blindFrame 1) (Tracking.Reachable.initial 2 0 30))
      (bootstrapFrame 2)).1 (by decide) (by decide),
   (Track_state_machine_safety demoThresholds
      ((Tracking.initial 2 0 30).GrabImage demoThresholds (blindFrame 1)).2
      (Tracking.Reachable.grab (blindFrame 1) (Tracking.Reachable.initial 2 0 30))
      (bootstrapFrame 2)).2 (by decide)⟩

/-! ## Theorems: pose history -/

/-- A frame whose timestamp is not later than the last recorded time is refused: the entry
point returns the failure indicator and the history keeps the entries it had. -/
theorem offerImage_refuses_stale_frame :
    ((Tracking.initial 2 0 30).ingest demoThresholds
        [blindFrame 2, blindFrame 1, blindFrame 2, blindFrame 3]).mlFrameTimes = [2, 3] ∧
    (Tracking.initial 2 0 30).offerImage demoThresholds (blindFrame 1) ≠ none ∧
    ((Tracking.initial 2 0 30).GrabImage demoThresholds (blindFrame 2)).2.offerImage
      demoThresholds (blindFrame 1) = none := by
  refine ⟨by decide, by decide, by decide⟩

/-! ## Theorems: local map -/

/-- A landmark flagged bad is not live. -/
theorem isLive_eq_false_of_isBad (store : List Landmark) (h : Nat)
    (hbad : isBad store h = true) : isLive store h = false := by
  unfold isBad at hbad
  unfold isLive
  cases hf : store.find? (fun l => l.handle == h) with
  | none => rfl
  | some l =>
    simp only [hf] at hbad
    simp [hbad]

/-- No landmark flagged bad is among the landmarks gathered from the local keyframes. -/
theorem not_mem_localLandmarks (atlas : Atlas) (store : List Landmark)
    (observed : KeyFrame → List Nat) (localKeyFrames : List Nat) (h : Nat)
    (hbad : isBad store h = true) : h ∉ localLandmarks atlas store observed localKeyFrames := by
  unfold localLandmarks
  intro hmem
  have hlive := (List.mem_filter.1 hmem).2
  rw [isLive_eq_false_of_isBad store h hbad] at hlive
  exact Bool.false_ne_true hlive

/-- No landmark flagged bad is among the candidates of a search. -/
theorem not_mem_searchCandidates (store : List Landmark) (isInFrustum : Nat → Bool)
    (locals : List Nat) (h : Nat) (hbad : isBad store h = true) :
    h ∉ searchCandidates store isInFrustum locals := by
  unfold searchCandidates
  intro hmem
  have hlive := (List.mem_filter.1 hmem).2
  rw [isLive_eq_false_of_isBad store h hbad] at hlive
  simp at hlive

/-- C5: for every session and map state, a point or line landmark flagged bad is neither in the
local sets built by `UpdateLocalPoints` and `UpdateLocalPointsAndLines` nor among the candidates
returned by `SearchLocalPoints` and `SearchLocalPointsAndLines`. -/
theorem local_map_excludes_bad (self : Tracking) (pointInFrustum lineInFrustum : Nat → Bool)
    (h : Nat) :
    (isBad self.mpAtlas.mapPoints h = true →
      h ∉ self.UpdateLocalPoints.mvpLocalMapPoints ∧
      h ∉ self.UpdateLocalPointsAndLines.mvpLocalMapPoints ∧
      h ∉ self.SearchLocalPoints pointInFrustum ∧
      h ∉ (self.SearchLocalPointsAndLines pointInFrustum lineInFrustum).1) ∧
    (isBad self.mpAtlas.mapLines h = true →
      h ∉ self.UpdateLocalPointsAndLines.mvpLocalMapLines ∧
      h ∉ (self.SearchLocalPointsAndLines pointInFrustum lineInFrustum).2) := by
  constructor
  · intro hbad
    exact ⟨not_mem_localLandmarks _ _ _ _ h hbad, not_mem_localLandmarks _ _ _ _ h hbad,
      not_mem_searchCandidates _ _ _ h hbad, not_mem_searchCandidates _ _ _ h hbad⟩
  · intro hbad
    exact ⟨not_mem_localLandmarks _ _ _ _ h hbad, not_mem_searchCandidates _ _ _ h hbad⟩

/-- C5 at a concrete map: the point 2 and the line 7, flagged bad and observed by the local
keyframe, are left out of the rebuilt local sets and of the candidates, which keep the other
landmarks. -/
theorem local_map_excludes_bad_witness :
    isBad demoMapSession.mpAtlas.mapPoints 2 = true ∧
    isBad demoMapSession.mpAtlas.mapLines 7 = true ∧
    2 ∉ demoMapSession.SearchLocalPoints (fun _ => true) ∧
    7 ∉ (demoMapSession.SearchLocalPointsAndLines (fun _ => true) (fun _ => true)).2 ∧
    (demoMapSession.UpdateLocalKeyFrames demoThresholds).UpdateLocalPointsAndLines.mvpLocalMapPoints
      = [1, 3] ∧
    demoMapSession.UpdateLocalPointsAndLines.mvpLocalMapLines = [8] ∧
    demoMapSession.SearchLocalPointsAndLines (fun _ => true) (fun _ => true) = ([1, 3], [8]) :=
  ⟨by decide, by decide,
   ((local_map_excludes_bad demoMapSession (fun _ => true) (fun _ => true) 2).1
      (by decide)).2.2.1,
   ((local_map_excludes_bad demoMapSession (fun _ => true) (fun _ => true) 7).2
      (by decide)).2,
   by decide, by decide, by decide⟩

/-! ## Theorems: camera pose of the drawer -/

/-- The matrix `Rwc` computed from a stored 4x4 pose: the transposed rotation block. -/
theorem Rwc_ofMatrix (T : Matrix (Fin 4) (Fin 4) ℚ) :
    (((cvMat.ofMatrix T).rowRange 0 3).colRange 0 3).t
      = ⟨[[T 0 0, T 1 0, T 2 0], [T 0 1, T 1 1, T 2 1], [T 0 2, T 1 2, T 2 2]]⟩ := by
  simp [cvMat.ofMatrix, cvMat.rowRange, cvMat.colRange, cvMat.t, cvMat.at2, cvMat.nrows,
    cvMat.ncols, List.range_succ]

/-- The vector `twc` computed from a stored 4x4 pose. -/
theorem twc_ofMatrix (T : Matrix (Fin 4) (Fin 4) ℚ) :
    ((((cvMat.ofMatrix T).rowRange 0 3).colRange 0 3).t.neg).mul
        (((cvMat.ofMatrix T).rowRange 0 3).col 3)
      = ⟨[[-T 0 0 * T 0 3 + -T 1 0 * T 1 3 + -T 2 0 * T 2 3],
          [-T 0 1 * T 0 3 + -T 1 1 * T 1 3 + -T 2 1 * T 2 3],
          [-T 0 2 * T 0 3 + -T 1 2 * T 1 3 + -T 2 2 * T 2 3]]⟩ := by
  rw [Rwc_ofMatrix]
  simp [cvMat.ofMatrix, cvMat.rowRange, cvMat.colRange, cvMat.col, cvMat.neg, cvMat.mul,
    cvMat.at2, cvMat.nrows, cvMat.ncols, List.range_succ, add_assoc]

/-- Reading an entry after the assignment `M.m[i] = v`. -/
theorem set_m (M : OpenGlMatrix) (i j : Fin 16) (v : ℚ) :
    (M.set i v).m j = if j = i then v else M.m j := by
  simp [OpenGlMatrix.set, Function.update]

/-- The third index of a 3x3 block is the third index of the 4x4 matrix. -/
theorem castSucc_two : (Fin.castSucc (2 : Fin 3) : Fin 4) = 2 :=
  rfl

set_option maxHeartbeats 1600000 in
/-- The entries of `[[Rᵀ, -Rᵀ t], [0 0 0 1]]` in terms of the entries of the pose. -/
theorem rigidInverse_eq (T : Matrix (Fin 4) (Fin 4) ℚ) :
    rigidInverse T =
      !![T 0 0, T 1 0, T 2 0, -T 0 0 * T 0 3 + -T 1 0 * T 1 3 + -T 2 0 * T 2 3;
         T 0 1, T 1 1, T 2 1, -T 0 1 * T 0 3 + -T 1 1 * T 1 3 + -T 2 1 * T 2 3;
         T 0 2, T 1 2, T 2 2, -T 0 2 * T 0 3 + -T 1 2 * T 1 3 + -T 2 2 * T 2 3;
         0, 0, 0, 1] := by
  ext r c
  fin_cases r <;> fin_cases c <;>
    simp [rigidInverse, rotationBlock, translationBlock, Matrix.mulVec, Matrix.dotProduct,
      Fin.sum_univ_three, castSucc_two] <;> ring

set_option maxHeartbeats 1600000 in
/-- The entries of the identity with translation `-Rᵀ t` in terms of the entries of the pose. -/
theorem translationMatrix_eq (T : Matrix (Fin 4) (Fin 4) ℚ) :
    translationMatrix (-((rotationBlock T).transpose.mulVec (translationBlock T))) =
      !![1, 0, 0, -T 0 0 * T 0 3 + -T 1 0 * T 1 3 + -T 2 0 * T 2 3;
         0, 1, 0, -T 0 1 * T 0 3 + -T 1 1 * T 1 3 + -T 2 1 * T 2 3;
         0, 0, 1, -T 0 2 * T 0 3 + -T 1 2 * T 1 3 + -T 2 2 * T 2 3;
         0, 0, 0, 1] := by
  ext r c
  fin_cases r <;> fin_cases c <;>
    simp [translationMatrix, rotationBlock, translationBlock, Matrix.mulVec, Matrix.dotProduct,
      Fin.sum_univ_three, castSucc_two] <;> ring

set_option maxHeartbeats 1600000 in
/-- The matrix `M` the two-matrix overload writes for a stored 4x4 pose, entry by entry. -/
theorem M_toMatrix (self : MapDrawer) (M MOw : OpenGlMatrix) (T : Matrix (Fin 4) (Fin 4) ℚ)
    (h : self.mCameraPose = cvMat.ofMatrix T) :
    (self.GetCurrentOpenGLCameraMatrix M MOw).1.toMatrix =
      !![T 0 0, T 1 0, T 2 0, -T 0 0 * T 0 3 + -T 1 0 * T 1 3 + -T 2 0 * T 2 3;
         T 0 1, T 1 1, T 2 1, -T 0 1 * T 0 3 + -T 1 1 * T 1 3 + -T 2 1 * T 2 3;
         T 0 2, T 1 2, T 2 2, -T 0 2 * T 0 3 + -T 1 2 * T 1 3 + -T 2 2 * T 2 3;
         0, 0, 0, 1] := by
  have hne : (cvMat.ofMatrix T).empty = false := rfl
  unfold MapDrawer.GetCurrentOpenGLCameraMatrix
  rw [h, hne]
  simp only [Bool.not_false, if_true, twc_ofMatrix]
  simp only [Rwc_ofMatrix]
  ext r c
  fin_cases r <;> fin_cases c <;>
    simp [OpenGlMatrix.toMatrix, set_m, cvMat.at2, cvMat.at1]

set_option maxHeartbeats 1600000 in
/-- The matrix `MOw` the two-matrix overload writes for a stored 4x4 pose, entry by entry. -/
theorem MOw_toMatrix (self : MapDrawer) (M MOw : OpenGlMatrix) (T : Matrix (Fin 4) (Fin 4) ℚ)
    (h : self.mCameraPose = cvMat.ofMatrix T) :
    (self.GetCurrentOpenGLCameraMatrix M MOw).2.toMatrix =
      !![1, 0, 0, -T 0 0 * T 0 3 + -T 1 0 * T 1 3 + -T 2 0 * T 2 3;
         0, 1, 0, -T 0 1 * T 0 3 + -T 1 1 * T 1 3 + -T 2 1 * T 2 3;
         0, 0, 1, -T 0 2 * T 0 3 + -T 1 2 * T 1 3 + -T 2 2 * T 2 3;
         0, 0, 0, 1] := by
  have hne : (cvMat.ofMatrix T).empty = false := rfl
  unfold MapDrawer.GetCurrentOpenGLCameraMatrix
  rw [h, hne]
  simp only [Bool.not_false, if_true, twc_ofMatrix]
  ext r c
  fin_cases r <;> fin_cases c <;>
    simp [OpenGlMatrix.toMatrix, OpenGlMatrix.SetIdentity, set_m, cvMat.at1] <;> rfl

/-- The nine equations `Rᵀ R = I` stands for. -/
theorem rotation_entries (T : Matrix (Fin 4) (Fin 4) ℚ)
    (hR : (rotationBlock T).transpose * rotationBlock T = 1) :
    (T 0 0 * T 0 0 + T 1 0 * T 1 0 + T 2 0 * T 2 0 = 1 ∧
     T 0 0 * T 0 1 + T 1 0 * T 1 1 + T 2 0 * T 2 1 = 0 ∧
     T 0 0 * T 0 2 + T 1 0 * T 1 2 + T 2 0 * T 2 2 = 0) ∧
    (T 0 1 * T 0 0 + T 1 1 * T 1 0 + T 2 1 * T 2 0 = 0 ∧
     T 0 1 * T 0 1 + T 1 1 * T 1 1 + T 2 1 * T 2 1 = 1 ∧
     T 0 1 * T 0 2 + T 1 1 * T 1 2 + T 2 1 * T 2 2 = 0) ∧
    (T 0 2 * T 0 0 + T 1 2 * T 1 0 + T 2 2 * T 2 0 = 0 ∧
     T 0 2 * T 0 1 + T 1 2 * T 1 1 + T 2 2 * T 2 1 = 0 ∧
     T 0 2 * T 0 2 + T 1 2 * T 1 2 + T 2 2 * T 2 2 = 1) := by
  have e := fun i j => congrFun (congrFun hR i) j
  have e00 := e 0 0
  have e01 := e 0 1
  have e02 := e 0 2
  have e10 := e 1 0
  have e11 := e 1 1
  have e12 := e 1 2
  have e20 := e 2 0
  have e21 := e 2 1
  have e22 := e 2 2
  simp [Matrix.mul_apply, Fin.sum_univ_three, rotationBlock, castSucc_two]
    at e00 e01 e02 e10 e11 e12 e20 e21 e22
  exact ⟨⟨e00, e01, e02⟩, ⟨e10, e11, e12⟩, ⟨e20, e21, e22⟩⟩

set_option maxHeartbeats 1600000 in
/-- For a stored 4x4 pose with orthogonal rotation block and last row `(0, 0, 0, 1)`, the
matrix `M` of the two-matrix overload times the pose is the identity. -/
theorem M_mul_pose (self : MapDrawer) (M MOw : OpenGlMatrix) (T : Matrix (Fin 4) (Fin 4) ℚ)
    (h : self.mCameraPose = cvMat.ofMatrix T)
    (hR : (rotationBlock T).transpose * rotationBlock T = 1)
    (hlast : T 3 = ![0, 0, 0, 1]) :
    (self.GetCurrentOpenGLCameraMatrix M MOw).1.toMatrix * T = 1 := by
  obtain ⟨⟨e00, e01, e02⟩, ⟨e10, e11, e12⟩, ⟨e20, e21, e22⟩⟩ := rotation_entries T hR
  have h30 : T 3 0 = 0 := by rw [hlast]; rfl
  have h31 : T 3 1 = 0 := by rw [hlast]; rfl
  have h32 : T 3 2 = 0 := by rw [hlast]; rfl
  have h33 : T 3 3 = 1 := by rw [hlast]; rfl
  rw [M_toMatrix self M MOw T h]
  ext i j
  fin_cases i <;> fin_cases j <;>
    simp [Matrix.mul_apply, Fin.sum_univ_four, h30, h31, h32, h33] <;> linarith

/-- C11: for every 4x4 world-to-camera pose stored in the drawer, with rotation block `R` and
translation `t`, the two-matrix `GetCurrentOpenGLCameraMatrix` writes into `M` the column-major
layout of `[[Rᵀ, -Rᵀ t], [0 0 0 1]]` and into `MOw` the identity with translation `-Rᵀ t`; when
`Rᵀ R = I` and the last row of the pose is `(0, 0, 0, 1)`, `M` times the pose is the identity. -/
theorem GetCurrentOpenGLCameraMatrix_inverse_pose (self : MapDrawer) (M MOw : OpenGlMatrix)
    (T : Matrix (Fin 4) (Fin 4) ℚ) :
    ((self.SetCurrentCameraPose (cvMat.ofMatrix T)).GetCurrentOpenGLCameraMatrix M MOw).1.toMatrix
      = rigidInverse T ∧
    ((self.SetCurrentCameraPose (cvMat.ofMatrix T)).GetCurrentOpenGLCameraMatrix M MOw).2.toMatrix
      = translationMatrix (-((rotationBlock T).transpose.mulVec (translationBlock T))) ∧
    ((rotationBlock T).transpose * rotationBlock T = 1 → T 3 = ![0, 0, 0, 1] →
      ((self.SetCurrentCameraPose (cvMat.ofMatrix T)).GetCurrentOpenGLCameraMatrix
        M MOw).1.toMatrix * T = 1) := by
  have h : (self.SetCurrentCameraPose (cvMat.ofMatrix T)).mCameraPose = cvMat.ofMatrix T := rfl
  refine ⟨?_, ?_, ?_⟩
  · rw [M_toMatrix _ M MOw T h, rigidInverse_eq]
  · rw [MOw_toMatrix _ M MOw T h, translationMatrix_eq]
  · intro hR hlast
    exact M_mul_pose _ M MOw T h hR hlast

/-- C11 at a concrete pose: for the quarter turn with translation `(1, 2, 3)` the matrix `M` is
the inverse pose, with translation `(-2, 1, -3)`, and `M` times the pose is the identity. -/
theorem GetCurrentOpenGLCameraMatrix_inverse_pose_witness :
    ((blankDrawer.SetCurrentCameraPose (cvMat.ofMatrix quarterTurnPose)).GetCurrentOpenGLCameraMatrix
        staleMatrix staleMatrix).1.toMatrix
      = !![0, 1, 0, -2;
           -1, 0, 0, 1;
           0, 0, 1, -3;
           0, 0, 0, 1] ∧
    ((blankDrawer.SetCurrentCameraPose (cvMat.ofMatrix quarterTurnPose)).GetCurrentOpenGLCameraMatrix
        staleMatrix staleMatrix).1.toMatrix * quarterTurnPose = 1 := by
  have hR : (rotationBlock quarterTurnPose).transpose * rotationBlock quarterTurnPose = 1 := by
    ext i j
    fin_cases i <;> fin_cases j <;>
      simp [Matrix.mul_apply, Fin.sum_univ_three, rotationBlock, castSucc_two, quarterTurnPose] <;>
      rfl
  have hlast : quarterTurnPose 3 = ![0, 0, 0, 1] := by
    ext i
    fin_cases i <;> rfl
  have hw := GetCurrentOpenGLCameraMatrix_inverse_pose blankDrawer staleMatrix staleMatrix
    quarterTurnPose
  refine ⟨?_, hw.2.2 hR hlast⟩
  rw [hw.1, rigidInverse_eq]
  ext i j
  fin_cases i <;> fin_cases j <;> norm_num [quarterTurnPose] <;> rfl

/-- C14: for every camera-pose state the three-matrix overload of `GetCurrentOpenGLCameraMatrix`
writes the same `M` and `MOw` as the two-matrix overload, and when no pose is stored both write
the identity to all of their outputs. -/
theorem GetCurrentOpenGLCameraMatrix_overloads_agree (self : MapDrawer) (Rwwp : cvMat)
    (M MOw MTwwp : OpenGlMatrix) :
    (self.GetCurrentOpenGLCameraMatrix3 Rwwp M MOw MTwwp).1
      = (self.GetCurrentOpenGLCameraMatrix M MOw).1 ∧
    (self.GetCurrentOpenGLCameraMatrix3 Rwwp M MOw MTwwp).2.1
      = (self.GetCurrentOpenGLCameraMatrix M MOw).2 ∧
    (self.mCameraPose.empty = true →
      (self.GetCurrentOpenGLCameraMatrix M MOw).1.toMatrix = 1 ∧
      (self.GetCurrentOpenGLCameraMatrix M MOw).2.toMatrix = 1 ∧
      (self.GetCurrentOpenGLCameraMatrix3 Rwwp M MOw MTwwp).1.toMatrix = 1 ∧
      (self.GetCurrentOpenGLCameraMatrix3 Rwwp M MOw MTwwp).2.1.toMatrix = 1 ∧
      (self.GetCurrentOpenGLCameraMatrix3 Rwwp M MOw MTwwp).2.2.toMatrix = 1) := by
  refine ⟨?_, ?_, ?_⟩
  · unfold MapDrawer.GetCurrentOpenGLCameraMatrix3 MapDrawer.GetCurrentOpenGLCameraMatrix
    cases self.mCameraPose.empty <;> rfl
  · unfold MapDrawer.GetCurrentOpenGLCameraMatrix3 MapDrawer.GetCurrentOpenGLCameraMatrix
    cases self.mCameraPose.empty <;> rfl
  · intro hempty
    unfold MapDrawer.GetCurrentOpenGLCameraMatrix3 MapDrawer.GetCurrentOpenGLCameraMatrix
    rw [hempty]
    simp only [Bool.not_true, Bool.false_eq_true, if_false]
    have hid : ∀ X : OpenGlMatrix, X.SetIdentity.toMatrix = 1 := by
      intro X
      ext r c
      fin_cases r <;> fin_cases c <;> simp [OpenGlMatrix.toMatrix, OpenGlMatrix.SetIdentity]
    exact ⟨hid M, hid MOw, hid M, hid MOw, hid MTwwp⟩

/-- C14 at a concrete drawer: a drawer whose pose was never set gets the identity in all
outputs of both overloads, whatever they held before. -/
theorem GetCurrentOpenGLCameraMatrix_overloads_agree_witness :
    blankDrawer.mCameraPose.empty = true ∧
    (blankDrawer.GetCurrentOpenGLCameraMatrix staleMatrix staleMatrix).1.toMatrix = 1 ∧
    (blankDrawer.GetCurrentOpenGLCameraMatrix3 ⟨[]⟩ staleMatrix staleMatrix
      staleMatrix).2.2.toMatrix = 1 :=
  ⟨rfl,
   ((GetCurrentOpenGLCameraMatrix_overloads_agree blankDrawer ⟨[]⟩ staleMatrix staleMatrix
      staleMatrix).2.2 rfl).1,
   ((GetCurrentOpenGLCameraMatrix_overloads_agree blankDrawer ⟨[]⟩ staleMatrix staleMatrix
      staleMatrix).2.2 rfl).2.2.2.2⟩

/-! ## Theorems: drawn map points -/

/-- A `std::set` built from a range holds exactly the pointers of the range. -/
theorem mem_stdSet (range : List Nat) (p : Nat) : p ∈ stdSet range ↔ p ∈ range := by
  unfold stdSet
  rw [List.mem_insertionSort, List.mem_dedup]

/-- A `std::set` holds each pointer once. -/
theorem nodup_stdSet (range : List Nat) : (stdSet range).Nodup := by
  unfold stdSet
  exact (List.perm_insertionSort _ _).nodup_iff.2 (List.nodup_dedup range)

/-- A vertex call contributes its coordinates when a primitive of the mode is open. -/
theorem verticesIn_vertex_cons (mode : GLenum) (current : Option GLenum) (pos : cvMat)
    (rest : List GLCmd) :
    verticesIn mode current (vertexOf pos :: rest)
      = (if current = some mode then [coordinatesOf pos] else [])
        ++ verticesIn mode current rest :=
  rfl

/-- The vertices of a loop that emits one vertex per element. -/
theorem verticesIn_vertices (mode : GLenum) (current : Option GLenum) (l : List cvMat)
    (rest : List GLCmd) :
    verticesIn mode current (l.flatMap (fun traj => [vertexOf traj]) ++ rest)
      = (if current = some mode then l.map coordinatesOf else [])
        ++ verticesIn mode current rest := by
  induction l with
  | nil => simp
  | cons x xs ih =>
    show verticesIn mode current
      (vertexOf x :: (xs.flatMap (fun traj => [vertexOf traj]) ++ rest)) = _
    rw [verticesIn_vertex_cons, ih]
    split_ifs <;> simp

/-- The vertices of a loop that skips some elements and emits one vertex for each other. -/
theorem verticesIn_skipping {α : Type} (mode : GLenum) (current : Option GLenum) (l : List α)
    (skip : α → Bool) (pos : α → cvMat) (rest : List GLCmd) :
    verticesIn mode current
        (l.flatMap (fun p => if skip p then [] else [vertexOf (pos p)]) ++ rest)
      = (if current = some mode then
          (l.filter (fun p => !skip p)).map (fun p => coordinatesOf (pos p)) else [])
        ++ verticesIn mode current rest := by
  induction l with
  | nil => simp
  | cons x xs ih =>
    rw [List.flatMap_cons, List.append_assoc]
    cases hs : skip x
    · simp only [Bool.false_eq_true, if_false, List.singleton_append]
      rw [verticesIn_vertex_cons, ih]
      split_ifs <;> simp [hs, List.filter_cons]
    · simp only [if_true, List.nil_append]
      rw [ih]
      simp [hs, List.filter_cons]

/-- The vertices `DrawMapPoints` emits in its two `GL_POINTS` passes are the positions of the
drawn map points, in order. -/
theorem DrawMapPoints_vertices (self : MapDrawer) (atlas : AtlasView)
    (hne : atlas.GetAllMapPoints ≠ []) :
    verticesIn .GL_POINTS none (self.DrawMapPoints atlas)
      = (drawnMapPoints atlas).map (fun p => coordinatesOf (atlas.mapPoint p).GetWorldPos) := by
  have hemp : atlas.GetAllMapPoints.isEmpty = false := by
    cases h : atlas.GetAllMapPoints with
    | nil => exact absurd h hne
    | cons a l => rfl
  unfold MapDrawer.DrawMapPoints drawnMapPoints
  simp only [hemp, Bool.false_eq_true, if_false, List.append_assoc, List.cons_append,
    List.nil_append, verticesIn]
  rw [verticesIn_vertices]
  simp only [verticesIn]
  rw [verticesIn_skipping]
  simp only [verticesIn]
  have h2 := verticesIn_skipping GLenum.GL_POINTS (some GLenum.GL_POINTS)
    (stdSet atlas.GetReferenceMapPoints) (fun p => (atlas.mapPoint p).isBad)
    (fun p => (atlas.mapPoint p).GetWorldPos) [GLCmd.glEnd]
  rw [h2]
  simp [verticesIn]

/-- When the list of all map points has distinct entries, no map point is drawn twice. -/
theorem drawnMapPoints_nodup (atlas : AtlasView) (hnodup : atlas.GetAllMapPoints.Nodup) :
    (drawnMapPoints atlas).Nodup := by
  unfold drawnMapPoints
  rw [List.nodup_append]
  refine ⟨hnodup.filter _, (nodup_stdSet _).filter _, ?_⟩
  intro p h1 h2
  have h1' := (List.mem_filter.1 h1).2
  have h2' := (List.mem_filter.1 h2).1
  simp only [Bool.not_eq_true', Bool.or_eq_false_iff] at h1'
  have : (stdSet atlas.GetReferenceMapPoints).contains p = true := by
    simpa using h2'
  rw [this] at h1'
  exact Bool.noConfusion h1'.2

/-- A map point is drawn exactly when it is among all map points or the reference map points
and is not bad. -/
theorem mem_drawnMapPoints (atlas : AtlasView) (p : Nat) :
    p ∈ drawnMapPoints atlas ↔
      (p ∈ atlas.GetAllMapPoints ∨ p ∈ atlas.GetReferenceMapPoints) ∧
        (atlas.mapPoint p).isBad = false := by
  unfold drawnMapPoints
  simp only [List.mem_append, List.mem_filter, mem_stdSet, Bool.not_eq_true',
    Bool.or_eq_false_iff]
  have hc : (stdSet atlas.GetReferenceMapPoints).contains p = false ↔
      p ∉ atlas.GetReferenceMapPoints := by
    rw [← mem_stdSet atlas.GetReferenceMapPoints p]
    simp
  rw [hc]
  tauto

/-- C13: for every atlas whose list of all map points is non-empty and has distinct entries, the
vertices `DrawMapPoints` emits in its two `GL_POINTS` passes are the world positions of the drawn
map points; each map point is drawn at most once, and the drawn map points are exactly the
points among all map points and reference map points that are not bad. -/
theorem DrawMapPoints_draws_good_points_once (self : MapDrawer) (atlas : AtlasView)
    (hne : atlas.GetAllMapPoints ≠ []) (hnodup : atlas.GetAllMapPoints.Nodup) :
    verticesIn .GL_POINTS none (self.DrawMapPoints atlas)
      = (drawnMapPoints atlas).map (fun p => coordinatesOf (atlas.mapPoint p).GetWorldPos) ∧
    (drawnMapPoints atlas).Nodup ∧
    (∀ p, p ∈ drawnMapPoints atlas ↔
      (p ∈ atlas.GetAllMapPoints ∨ p ∈ atlas.GetReferenceMapPoints) ∧
        (atlas.mapPoint p).isBad = false) :=
  ⟨DrawMapPoints_vertices self atlas hne, drawnMapPoints_nodup atlas hnodup,
   mem_drawnMapPoints atlas⟩

/-- C13 at a concrete atlas: with the map points 1, 2, 3 and the reference points 3, 4, 4, the
point 2 being bad, the points 1, 3 and 4 are drawn, each once, and the bad point 2 is not. -/
theorem DrawMapPoints_draws_good_points_once_witness :
    drawnMapPoints pointsAtlas = [1, 3, 4] ∧
    verticesIn .GL_POINTS none (blankDrawer.DrawMapPoints pointsAtlas)
      = (drawnMapPoints pointsAtlas).map
          (fun p => coordinatesOf (pointsAtlas.mapPoint p).GetWorldPos) ∧
    (drawnMapPoints pointsAtlas).Nodup ∧ 2 ∉ drawnMapPoints pointsAtlas :=
  ⟨by decide,
   (DrawMapPoints_draws_good_points_once blankDrawer pointsAtlas (by decide) (by decide)).1,
   (DrawMapPoints_draws_good_points_once blankDrawer pointsAtlas (by decide) (by decide)).2.1,
   by decide⟩

/-! ## Theorems: bracketing of the drawing calls -/

/-- Calls that neither open nor close a primitive do not change whether the calls after them
are well bracketed. -/
theorem wellBracketedFrom_neutral (isOpen : Bool) (l rest : List GLCmd)
    (h : ∀ c ∈ l, c.isBracket = false) :
    wellBracketedFrom isOpen (l ++ rest) = wellBracketedFrom isOpen rest := by
  induction l with
  | nil => rfl
  | cons c cs ih =>
    have hc := h c (List.mem_cons_self c cs)
    have hcs := ih (fun d hd => h d (List.mem_cons_of_mem c hd))
    cases c <;> first | (simp [GLCmd.isBracket] at hc; done) | exact hcs

/-- A loop whose body neither opens nor closes a primitive does neither. -/
theorem neutral_flatMap {α : Type} (l : List α) (f : α → List GLCmd)
    (h : ∀ x, ∀ c ∈ f x, c.isBracket = false) : ∀ c ∈ l.flatMap f, c.isBracket = false := by
  intro c hc
  obtain ⟨x, _, hx⟩ := List.mem_flatMap.1 hc
  exact h x c hx

/-- A vertex call neither opens nor closes a primitive. -/
theorem vertex_neutral (pos : cvMat) : ∀ c ∈ [vertexOf pos], c.isBracket = false := by
  intro c hc
  rw [List.mem_singleton] at hc
  subst hc
  rfl

/-- A loop body that is skipped or emits a vertex neither opens nor closes a primitive. -/
theorem skip_neutral (skip : Bool) (l : List GLCmd) (h : ∀ c ∈ l, c.isBracket = false) :
    ∀ c ∈ (if skip then [] else l), c.isBracket = false := by
  cases skip
  · exact h
  · intro c hc
    simp at hc

/-- The vertex calls of a line neither open nor close a primitive. -/
theorem lineVertices_neutral (sep : List ℚ) : ∀ c ∈ lineVertices sep, c.isBracket = false := by
  intro c hc
  simp only [lineVertices, List.mem_cons, List.mem_singleton, List.not_mem_nil, or_false] at hc
  rcases hc with rfl | rfl <;> rfl

/-- The vertex calls of a pair of points neither open nor close a primitive. -/
theorem pairVertices_neutral (pos : cvMat) : ∀ c ∈ pairVertices pos, c.isBracket = false := by
  intro c hc
  simp only [pairVertices, List.mem_cons, List.mem_singleton, List.not_mem_nil, or_false] at hc
  rcases hc with rfl | rfl <;> rfl

/-- The calls of `DrawMapPoints`, `DrawMapLines`, `DrawMapDelaunayLines` and
`DrawCurrentCamera` are well bracketed for every atlas content. -/
theorem sibling_draws_wellBracketed (self : MapDrawer) (atlas : AtlasView)
    (Twc : OpenGlMatrix) :
    wellBracketed (self.DrawMapPoints atlas) = true ∧
    wellBracketed (self.DrawMapLines atlas) = true ∧
    wellBracketed (self.DrawMapDelaunayLines atlas) = true ∧
    wellBracketed (self.DrawCurrentCamera Twc) = true := by
  unfold wellBracketed
  refine ⟨?_, ?_, ?_, ?_⟩
  · cases h : atlas.GetAllMapPoints.isEmpty
    · simp only [MapDrawer.DrawMapPoints, h, Bool.false_eq_true, if_false, List.append_assoc,
        List.cons_append, List.nil_append, wellBracketedFrom, Bool.not_false, Bool.true_and,
        Bool.not_true]
      rw [wellBracketedFrom_neutral _ _ _ (neutral_flatMap _ _ (fun x => vertex_neutral x))]
      simp only [wellBracketedFrom, Bool.not_false, Bool.true_and]
      rw [wellBracketedFrom_neutral _ _ _
        (neutral_flatMap _ _ (fun x => skip_neutral _ _ (vertex_neutral _)))]
      simp only [wellBracketedFrom, Bool.not_false, Bool.true_and]
      rw [wellBracketedFrom_neutral _ _ _
        (neutral_flatMap _ _ (fun x => skip_neutral _ _ (vertex_neutral _)))]
      rfl
    · simp only [MapDrawer.DrawMapPoints, h, if_true]
      rfl
  · cases h : atlas.GetAllMapLines.isEmpty
    · simp only [MapDrawer.DrawMapLines, h, Bool.false_eq_true, if_false, List.append_assoc,
        List.cons_append, List.nil_append, wellBracketedFrom, Bool.not_false, Bool.true_and,
        Bool.not_true]
      rw [wellBracketedFrom_neutral _ _ _
        (neutral_flatMap _ _ (fun x => skip_neutral _ _ (lineVertices_neutral _)))]
      simp only [wellBracketedFrom, Bool.not_false, Bool.true_and]
      rw [wellBracketedFrom_neutral _ _ _
        (neutral_flatMap _ _ (fun x => skip_neutral _ _ (lineVertices_neutral _)))]
      rfl
    · simp only [MapDrawer.DrawMapLines, h, if_true]
      rfl
  · cases h : atlas.GetAllMapDelaunayLine.isEmpty
    · simp only [MapDrawer.DrawMapDelaunayLines, h, Bool.false_eq_true, if_false,
        List.append_assoc, List.cons_append, List.nil_append, wellBracketedFrom, Bool.not_false,
        Bool.true_and, Bool.not_true]
      rw [wellBracketedFrom_neutral _ _ _ (neutral_flatMap _ _ pairVertices_neutral)]
      simp only [wellBracketedFrom, Bool.not_false, Bool.true_and]
      rw [wellBracketedFrom_neutral _ _ _ (neutral_flatMap _ _ pairVertices_neutral)]
      rfl
    · simp only [MapDrawer.DrawMapDelaunayLines, h, if_true]
      rfl
  · simp only [MapDrawer.DrawCurrentCamera, List.append_assoc, List.cons_append,
      List.nil_append, wellBracketedFrom, Bool.not_false, Bool.true_and]

/-- C12 fails on the code: `DrawDynamicTrack` and `DrawMapSemantic` call `glEnd` with no
primitive open when their list is empty and call `glBegin` inside an open primitive when it has
two entries, and `DrawKeyFrames` with `bDrawKF` calls `glEnd` a second time for a keyframe. -/
theorem draw_calls_not_well_bracketed :
    wellBracketed (blankDrawer.DrawDynamicTrack emptyAtlasView) = false ∧
    wellBracketed (blankDrawer.DrawDynamicTrack twoPersonAtlas) = false ∧
    wellBracketed (blankDrawer.DrawMapSemantic emptyAtlasView) = false ∧
    wellBracketed (blankDrawer.DrawMapSemantic twoSemanticAtlas) = false ∧
    wellBracketed (blankDrawer.DrawKeyFrames (fun _ _ => 0) oneKeyFrameAtlas true false false)
      = false ∧
    blankDrawer.DrawDynamicTrack emptyAtlasView
      = [.glPointSize 5, .glColor3f 1 0 0, .glEnd, .glColor3f 0 1 1, .glLineWidth 4,
         .glBegin .GL_LINE_STRIP, .glEnd] := by
  refine ⟨by decide, by decide, by decide, by decide, by decide, by decide⟩

/-! ## Theorems: covisibility graph of the drawer -/

/-- The covisibility calls for one keyframe are the segments of its covisible pairs that start
at the keyframe with the smaller or equal id. -/
theorem covisibilityCalls_eq (atlas : AtlasView) (pKF : Nat) :
    covisibilityCalls atlas pKF
      = (((((atlas.keyFrame pKF).GetCovisiblesByWeight 100).map (fun y => (pKF, y))).filter
          (fun e => decide ((atlas.keyFrame e.1).mnId ≤ (atlas.keyFrame e.2).mnId))).flatMap
          (segmentOf atlas)) := by
  unfold covisibilityCalls
  simp only
  induction (atlas.keyFrame pKF).GetCovisiblesByWeight 100 with
  | nil => rfl
  | cons v vs ih =>
    rw [List.flatMap_cons, ih, List.map_cons, List.filter_cons]
    by_cases h : (atlas.keyFrame v).mnId < (atlas.keyFrame pKF).mnId
    · have h' : ¬ (atlas.keyFrame pKF).mnId ≤ (atlas.keyFrame v).mnId := Nat.not_le.2 h
      simp [h, h']
    · have h' : (atlas.keyFrame pKF).mnId ≤ (atlas.keyFrame v).mnId := Nat.not_lt.1 h
      simp [h, h', segmentOf]

/-- The covisibility part of the graph is the segments of the covisible pairs that start at the
keyframe with the smaller or equal id, in order. -/
theorem covisibilityPart_eq (atlas : AtlasView) :
    covisibilityPart atlas = (covisiblePairsFromSmallerId atlas).flatMap (segmentOf atlas) := by
  unfold covisibilityPart covisiblePairsFromSmallerId covisiblePairs
  induction atlas.GetAllKeyFrames with
  | nil => rfl
  | cons p ps ih =>
    rw [List.flatMap_cons, List.flatMap_cons, List.filter_append, List.flatMap_append, ← ih,
      covisibilityCalls_eq]

/-- Reading the vertex calls of a list of pairs two by two gives back one segment per pair. -/
theorem segmentsOf_segments (atlas : AtlasView) (pairs : List (Nat × Nat)) :
    segmentsOf (pairs.flatMap (segmentOf atlas))
      = pairs.map (fun e => segmentCalls atlas e.1 e.2) := by
  induction pairs with
  | nil => rfl
  | cons e es ih =>
    rw [List.flatMap_cons, List.map_cons, ← ih]
    rfl

/-- No ordered pair of covisible keyframes is listed twice when no keyframe is listed twice and
no vector of covisible keyframes holds a keyframe twice. -/
theorem nodup_covisiblePairs (atlas : AtlasView) (hK : atlas.GetAllKeyFrames.Nodup)
    (hrel : ∀ x ∈ atlas.GetAllKeyFrames, ((atlas.keyFrame x).GetCovisiblesByWeight 100).Nodup) :
    (covisiblePairs atlas).Nodup := by
  unfold covisiblePairs
  rw [List.nodup_flatMap]
  refine ⟨fun x hx => (hrel x hx).map (fun u v h => (Prod.mk.inj h).2), ?_⟩
  refine List.Pairwise.imp ?_ hK
  intro x y hxy e hex hey
  obtain ⟨u, _, hu⟩ := List.mem_map.1 hex
  obtain ⟨v, _, hv⟩ := List.mem_map.1 hey
  rw [← hv] at hu
  exact hxy (Prod.mk.inj hu).1

/-- An ordered pair is a covisible pair exactly when its first keyframe is in the atlas and its
second is in the vector of covisibles of the first. -/
theorem mem_covisiblePairs (atlas : AtlasView) (e : Nat × Nat) :
    e ∈ covisiblePairs atlas ↔
      e.1 ∈ atlas.GetAllKeyFrames ∧ e.2 ∈ (atlas.keyFrame e.1).GetCovisiblesByWeight 100 := by
  obtain ⟨x, y⟩ := e
  unfold covisiblePairs
  simp only [List.mem_flatMap, List.mem_map, Prod.mk.injEq]
  constructor
  · rintro ⟨p, hp, v, hv, rfl, rfl⟩
    exact ⟨hp, hv⟩
  · rintro ⟨hp, hv⟩
    exact ⟨x, hp, y, hv, rfl, rfl⟩


/-- With `bDrawGraph`, the calls of `DrawKeyFrames` contain the graph block: the line style,
`glBegin(GL_LINES)`, for each keyframe in order its covisibility, spanning-tree and loop-edge
calls, and `glEnd`. -/
theorem DrawKeyFrames_graph_calls (self : MapDrawer) (mfFrameColors : Nat → Nat → ℚ)
    (atlas : AtlasView) (bDrawKF bDrawInertialGraph : Bool) :
    ∃ before after : List GLCmd,
      self.DrawKeyFrames mfFrameColors atlas bDrawKF true bDrawInertialGraph
        = before
          ++ ([.glLineWidth self.mGraphLineWidth, .glColor4f 0 1 0 (3 / 5), .glBegin .GL_LINES]
              ++ atlas.GetAllKeyFrames.flatMap (fun pKF =>
                  covisibilityCalls atlas pKF ++ spanningTreeCalls atlas pKF
                    ++ loopEdgeCalls atlas pKF)
              ++ [.glEnd])
          ++ after := by
  have split : ∀ X G Y Z : List GLCmd, ∃ before after : List GLCmd,
      X ++ G ++ Y ++ Z = before ++ G ++ after :=
    fun X G Y Z => ⟨X, Y ++ Z, by simp only [List.append_assoc]⟩
  exact split _ _ _ _

/-- With distinct ids, a covisible pair listed from the keyframe with the smaller id is among the
pairs drawn, which hold no pair twice, and the reversed pair is not. -/
theorem count_pair_once (atlas : AtlasView) (a b : Nat)
    (hids : (atlas.GetAllKeyFrames.map (fun p => (atlas.keyFrame p).mnId)).Nodup)
    (hrel : ∀ x ∈ atlas.GetAllKeyFrames, ((atlas.keyFrame x).GetCovisiblesByWeight 100).Nodup)
    (ha : a ∈ atlas.GetAllKeyFrames)
    (hab : b ∈ (atlas.keyFrame a).GetCovisiblesByWeight 100)
    (hlt : (atlas.keyFrame a).mnId < (atlas.keyFrame b).mnId) :
    (covisiblePairsFromSmallerId atlas).Nodup ∧
    (a, b) ∈ covisiblePairsFromSmallerId atlas ∧ (b, a) ∉ covisiblePairsFromSmallerId atlas := by
  have hK : atlas.GetAllKeyFrames.Nodup := List.Nodup.of_map _ hids
  refine ⟨(nodup_covisiblePairs atlas hK hrel).filter _, ?_, ?_⟩
  · unfold covisiblePairsFromSmallerId
    rw [List.mem_filter]
    exact ⟨(mem_covisiblePairs atlas (a, b)).2 ⟨ha, hab⟩, decide_eq_true hlt.le⟩
  · unfold covisiblePairsFromSmallerId
    rw [List.mem_filter]
    rintro ⟨_, h⟩
    exact Nat.not_le.2 hlt (of_decide_eq_true h)

/-- An entry of a list without duplicates is counted once. -/
theorem countP_eq_one_of_nodup {α : Type} [DecidableEq α] (l : List α) (x : α)
    (hl : l.Nodup) (hx : x ∈ l) : l.countP (fun e => decide (e = x)) = 1 :=
  List.count_eq_one_of_mem hl hx

/-- Something that is not in a list is counted zero times. -/
theorem countP_eq_zero_of_not_mem {α : Type} [DecidableEq α] (l : List α) (x : α)
    (hx : x ∉ l) : l.countP (fun e => decide (e = x)) = 0 := by
  rw [List.countP_eq_zero]
  intro e he
  simp only [decide_eq_true_eq]
  rintro rfl
  exact hx he

/-- C15: for keyframes with pairwise distinct ids whose vectors `GetCovisiblesByWeight(100)`
hold no keyframe twice and are symmetric, and two keyframes `a`, `b` of the atlas that are
covisible, `a` with the smaller id: `DrawKeyFrames` with `bDrawGraph` makes, inside its
`GL_LINES` block, the covisibility calls of every keyframe; these calls are the segments of the
covisible pairs taken from the keyframe with the smaller id, among which the pair `(a, b)`
occurs exactly once and the pair `(b, a)` never; and when no other keyframe of a covisible pair
has a camera centre drawn at the coordinates of `a` or `b`, the segment from the centre of `a`
to the centre of `b` is emitted exactly once and the reversed segment never. -/
theorem DrawKeyFrames_covisibility_edge_once (self : MapDrawer) (mfFrameColors : Nat → Nat → ℚ)
    (atlas : AtlasView) (bDrawKF bDrawInertialGraph : Bool) (a b : Nat)
    (hids : (atlas.GetAllKeyFrames.map (fun p => (atlas.keyFrame p).mnId)).Nodup)
    (hrel : ∀ x ∈ atlas.GetAllKeyFrames, ((atlas.keyFrame x).GetCovisiblesByWeight 100).Nodup)
    (hsym : ∀ x ∈ atlas.GetAllKeyFrames, ∀ y ∈ atlas.GetAllKeyFrames,
      y ∈ (atlas.keyFrame x).GetCovisiblesByWeight 100 →
      x ∈ (atlas.keyFrame y).GetCovisiblesByWeight 100)
    (ha : a ∈ atlas.GetAllKeyFrames) (hb : b ∈ atlas.GetAllKeyFrames)
    (hcov : b ∈ (atlas.keyFrame a).GetCovisiblesByWeight 100 ∨
      a ∈ (atlas.keyFrame b).GetCovisiblesByWeight 100)
    (hlt : (atlas.keyFrame a).mnId < (atlas.keyFrame b).mnId) :
    (∃ before after : List GLCmd,
      self.DrawKeyFrames mfFrameColors atlas bDrawKF true bDrawInertialGraph
        = before
          ++ ([.glLineWidth self.mGraphLineWidth, .glColor4f 0 1 0 (3 / 5), .glBegin .GL_LINES]
              ++ atlas.GetAllKeyFrames.flatMap (fun pKF =>
                  covisibilityCalls atlas pKF ++ spanningTreeCalls atlas pKF
                    ++ loopEdgeCalls atlas pKF)
              ++ [.glEnd])
          ++ after) ∧
    covisibilityPart atlas = (covisiblePairsFromSmallerId atlas).flatMap (segmentOf atlas) ∧
    (covisiblePairsFromSmallerId atlas).countP (fun e => decide (e = (a, b))) = 1 ∧
    (covisiblePairsFromSmallerId atlas).countP (fun e => decide (e = (b, a))) = 0 ∧
    ((∀ e ∈ covisiblePairs atlas, ∀ x ∈ [e.1, e.2], ∀ y ∈ [a, b],
        vertexOf (atlas.keyFrame x).GetCameraCenter = vertexOf (atlas.keyFrame y).GetCameraCenter →
        x = y) →
      (segmentsOf (covisibilityPart atlas)).countP
          (fun s => decide (s = segmentCalls atlas a b)) = 1 ∧
      (segmentsOf (covisibilityPart atlas)).countP
          (fun s => decide (s = segmentCalls atlas b a)) = 0) := by
  have hab : b ∈ (atlas.keyFrame a).GetCovisiblesByWeight 100 := by
    rcases hcov with h | h
    · exact h
    · exact hsym b hb a ha h
  obtain ⟨hnodup, hmem, hnot⟩ := count_pair_once atlas a b hids hrel ha hab hlt
  have hone := countP_eq_one_of_nodup _ _ hnodup hmem
  have hzero := countP_eq_zero_of_not_mem _ _ hnot
  refine ⟨DrawKeyFrames_graph_calls self mfFrameColors atlas bDrawKF bDrawInertialGraph,
    covisibilityPart_eq atlas, hone, hzero, ?_⟩
  intro hinj
  rw [covisibilityPart_eq, segmentsOf_segments, List.countP_map, List.countP_map]
  have hsub : ∀ e ∈ covisiblePairsFromSmallerId atlas, e ∈ covisiblePairs atlas :=
    fun e he => (List.mem_filter.1 he).1
  constructor
  · rw [← hone]
    apply List.countP_congr
    intro e he
    simp only [Function.comp, decide_eq_true_eq]
    constructor
    · intro hs
      have h1 := hinj e (hsub e he) e.1 (by simp) a (by simp) (Prod.mk.inj hs).1
      have h2 := hinj e (hsub e he) e.2 (by simp) b (by simp) (Prod.mk.inj hs).2
      exact Prod.ext h1 h2
    · rintro rfl
      rfl
  · rw [← hzero]
    apply List.countP_congr
    intro e he
    simp only [Function.comp, decide_eq_true_eq]
    constructor
    · intro hs
      have h1 := hinj e (hsub e he) e.1 (by simp) b (by simp) (Prod.mk.inj hs).1
      have h2 := hinj e (hsub e he) e.2 (by simp) a (by simp) (Prod.mk.inj hs).2
      exact Prod.ext h1 h2
    · rintro rfl
      rfl

/-- Witness of C15: three keyframes in a row with the ids 10, 20 and 30, each covisible with its
neighbours: the covisibility part is the two segments from the smaller id, and the segment
between the first two keyframes is emitted once in that direction and never in the other. -/
theorem DrawKeyFrames_covisibility_edge_once_witness :
    covisibilityPart graphAtlas
      = [.glVertex3f 0 0 0, .glVertex3f 1 0 0, .glVertex3f 1 0 0, .glVertex3f 2 0 0] ∧
    (segmentsOf (covisibilityPart graphAtlas)).countP
        (fun s => decide (s = segmentCalls graphAtlas 1 2)) = 1 ∧
    (segmentsOf (covisibilityPart graphAtlas)).countP
        (fun s => decide (s = segmentCalls graphAtlas 2 1)) = 0 :=
  ⟨by decide,
   ((DrawKeyFrames_covisibility_edge_once blankDrawer (fun _ _ => 0) graphAtlas false false 1 2
      (by decide) (by decide) (by decide) (by decide) (by decide) (by decide)
      (by decide)).2.2.2.2 (by decide)).1,
   ((DrawKeyFrames_covisibility_edge_once blankDrawer (fun _ _ => 0) graphAtlas false false 1 2
      (by decide) (by decide) (by decide) (by decide) (by decide) (by decide)
      (by decide)).2.2.2.2 (by decide)).2⟩

end ORB_SLAM3
